import Mathlib


/-!
# Verification of the creative-agent validation and format-filtering engine

This file gives a shallow embedding, in Lean 4, of the core logic of the
`creative_agent` Python package:

* `validation.py` — the per-type asset validators (`validate_url`,
  `validate_data_uri`, `validate_html_content`, …), `validate_asset`, and
  `validate_manifest_assets`;
* `data/standard_formats.py` — the static format registry
  (`STANDARD_FORMATS`) and the query function `filter_formats`;
* `storage.py` — the dimension-selection logic of `generate_preview_html`;
* `server.py` — the variant-synthesis pipeline of `preview_creative`.

Modelling conventions:

* Dynamically-typed Python values are embedded as the inductive type `PyVal`
  (`None`, `bool`, `int`, `float`, `str`, `list`, `dict` with string keys);
  floats appear only as inert data inside requirement maps and are carried
  as rationals.  Python truthiness is `PyVal.truthy`.
* Functions that may raise are embedded as `Except PyErr _`.  `PyErr`
  distinguishes `AssetValidationError` (caught by
  `validate_manifest_assets`) from other exceptions such as
  `AttributeError` (which propagate).
* Strings are processed as `List Char`; `str.lower`, `str.strip`,
  `str.split`, `str.replace(pat, "")` and `int(...)` are embedded for the
  ASCII inputs the validators handle (Python's Unicode case folding and
  underscore digit grouping in `int` literals are outside the fragment the
  code exercises).
* `urllib.parse.urlparse` is embedded to the extent `validate_url` consumes
  it: scheme and netloc extraction, including the removal of tab/CR/LF and
  surrounding C0-control/space characters performed by current CPython, and
  the `ValueError` raised on unbalanced IPv6 brackets in the netloc.
* Registry entries carry the fields the embedded operations consume
  (`format_id`, `name`, `type`, the `requirements` map, the legacy
  `dimensions` attribute, and `assets_required` with `asset_id`,
  `asset_type`, `required`); purely informational fields (descriptions,
  macros, per-requirement advisory constraints, agent URL, …) that none of
  the embedded operations read are omitted.
-/

/-- Embedded Python value (the dynamic values the validators inspect). -/
inductive PyVal where
  | none : PyVal
  | bool (b : Bool) : PyVal
  | int (n : Int) : PyVal
  | float (q : Rat) : PyVal
  | str (s : String) : PyVal
  | list (xs : List PyVal) : PyVal
  | dict (xs : List (String × PyVal)) : PyVal

/-- Python truthiness of an embedded value. -/
def PyVal.truthy : PyVal → Bool
  | .none => false
  | .bool b => b
  | .int n => n != 0
  | .float q => q != 0
  | .str s => s != ""
  | .list xs => !xs.isEmpty
  | .dict xs => !xs.isEmpty

/-- Embedded `dict.get`: first binding of the key, `Option.none` if absent
(Python dict keys are unique, so first binding is the binding). -/
def pyGet (xs : List (String × PyVal)) (k : String) : Option PyVal :=
  xs.lookup k

/-- Embedded exception: `AssetValidationError` versus any other exception
(`AttributeError`, `ValueError`, …).  Only the former is caught by
`validate_manifest_assets`. -/
inductive PyErr where
  | assetError (msg : String) : PyErr
  | uncaught (msg : String) : PyErr
deriving DecidableEq

deriving instance DecidableEq for Except

/-- Python whitespace characters recognised by `str.strip()`. -/
def pyIsSpace (c : Char) : Bool :=
  c = ' ' || c = '\t' || c = '\n' || c = '\x0d' || c = '\x0b' || c = '\x0c'

/-- Strip characters satisfying `p` from both ends of a character list. -/
def stripWhile (p : Char → Bool) (l : List Char) : List Char :=
  ((l.dropWhile p).reverse.dropWhile p).reverse

/-- Embedded `str.strip()` (no arguments: Python whitespace). -/
def pyStrip (l : List Char) : List Char := stripWhile pyIsSpace l

/-- Embedded `str.lower()` on the ASCII fragment. -/
def lowerL (l : List Char) : List Char := l.map Char.toLower

/-- Split a character list at the first occurrence of `c`:
`some (before, after)` with the separator removed, `none` if `c` is absent.
This is `s.split(c, 1)` when it finds a separator. -/
def splitFirst (c : Char) : List Char → Option (List Char × List Char)
  | [] => Option.none
  | x :: t =>
    if x = c then some ([], t)
    else match splitFirst c t with
      | Option.none => Option.none
      | some (a, b) => some (x :: a, b)

/-- Embedded `str.replace("data:", "")`: remove every occurrence of the
five-character pattern `data:`, scanning left to right over non-overlapping
matches (exactly Python's `str.replace` with an empty replacement). -/
def removeDataColon : List Char → List Char
  | 'd' :: 'a' :: 't' :: 'a' :: ':' :: t => removeDataColon t
  | x :: t => x :: removeDataColon t
  | [] => []

/-- Embedded `str.split(c)` on a single-character separator (all pieces,
Python semantics: `"".split("x") == [""]`, `"x".split("x") == ["", ""]`). -/
def splitAllOn (c : Char) : List Char → List (List Char)
  | [] => [[]]
  | x :: t =>
    if x = c then [] :: splitAllOn c t
    else match splitAllOn c t with
      | [] => [[x]]
      | h :: r => (x :: h) :: r

/-- Value of a nonempty all-digit character list, `none` otherwise. -/
def digitsVal (l : List Char) : Option Nat :=
  if l ≠ [] ∧ l.all Char.isDigit then
    some (l.foldl (fun n c => n * 10 + (c.toNat - '0'.toNat)) 0)
  else
    Option.none

/-- Embedded `int(s)` on the fragment the code exercises: surrounding
whitespace stripped, optional sign, then decimal digits; `none` models the
`ValueError` raised otherwise. -/
def pyInt (l : List Char) : Option Int :=
  match pyStrip l with
  | '-' :: ds => (digitsVal ds).map fun n => -(n : Int)
  | '+' :: ds => (digitsVal ds).map fun n => (n : Int)
  | ds => (digitsVal ds).map fun n => (n : Int)

/-- Substring containment, embedded `pat in s` (empty pattern matches). -/
def containsSub (pat : List Char) : List Char → Bool
  | [] => pat.isEmpty
  | x :: t => pat.isPrefixOf (x :: t) || containsSub pat t

/-! ## `validate_data_uri` (validation.py lines 128–155) -/

/-- MIME types the data-URI validator allows. -/
def allowedImageMimes : List String :=
  ["image/png", "image/jpeg", "image/jpg", "image/gif", "image/webp", "image/svg+xml"]

/-- Size limit for data-URI payloads: 10 * 1024 * 1024. -/
def dataUriLimit : Nat := 10 * 1024 * 1024

/-- MIME field as the code computes it from the pre-comma header:
`header.split(";")[0].replace("data:", "")`. -/
def headerMime (header : List Char) : String :=
  String.mk (removeDataColon (header.takeWhile (· ≠ ';')))

/-- Embedded `validate_data_uri`: prefix check, comma split, MIME allow-list
on `header.split(";")[0].replace("data:", "")`, and payload length bound. -/
def validate_data_uri (uri : String) : Except PyErr Unit :=
  let u := uri.data
  if ¬ ("data:".data.isPrefixOf u) then
    .error (.assetError "Data URI must start with 'data:'")
  else
    match splitFirst ',' u with
    | Option.none => .error (.assetError "Data URI must contain comma separator")
    | some (header, data) =>
      if ¬ allowedImageMimes.contains (headerMime header) then
        .error (.assetError ("Data URI MIME type not allowed: " ++ headerMime header))
      else if data.length > dataUriLimit then
        .error (.assetError "Data URI exceeds 10MB size limit")
      else
        .ok ()

/-- The MIME type as the specification describes it: the header up to the
first semicolon, with the leading literal `data:` removed once. -/
def specMime (uri : String) : String :=
  match splitFirst ',' uri.data with
  | some (header, _) => String.mk ((header.takeWhile (· ≠ ';')).drop 5)
  | Option.none => ""

/-- Success condition for a data URI as the specification sentence states it
(prefix, comma, allow-listed MIME computed as `specMime`, payload bound). -/
def dataUriClaimOk (uri : String) : Bool :=
  "data:".data.isPrefixOf uri.data &&
    match splitFirst ',' uri.data with
    | some (_, data) =>
      allowedImageMimes.contains (specMime uri) && data.length ≤ dataUriLimit
    | Option.none => false

/-- Success condition with the MIME type computed the way the code computes
it: every occurrence of `data:` removed from the header before the first
semicolon (not just the leading one). -/
def dataUriCodeOk (uri : String) : Bool :=
  "data:".data.isPrefixOf uri.data &&
    match splitFirst ',' uri.data with
    | some (header, data) =>
      allowedImageMimes.contains (headerMime header) && data.length ≤ dataUriLimit
    | Option.none => false

/-! ## `urllib.parse.urlparse` (scheme/netloc fragment) and `validate_url`
(validation.py lines 94–125) -/

/-- Characters CPython's `urlsplit` strips from both ends of the URL
(WHATWG C0 controls and space). -/
def isC0OrSpace (c : Char) : Bool := c.toNat ≤ 32

/-- Bytes CPython's `urlsplit` removes everywhere in the URL. -/
def isUnsafeUrlByte (c : Char) : Bool := c = '\t' || c = '\x0d' || c = '\n'

/-- Characters allowed in a URL scheme after the leading letter. -/
def schemeChar (c : Char) : Bool := c.isAlpha || c.isDigit || c = '+' || c = '-' || c = '.'

/-- Scheme detection of `urlsplit`: the text before the first colon counts as
the scheme when it is nonempty, starts with a letter and consists of scheme
characters; otherwise the URL has no scheme. -/
def splitSchemeL (u : List Char) : Option (List Char × List Char) :=
  match splitFirst ':' u with
  | Option.none => Option.none
  | some (pre, rest) =>
    match pre with
    | [] => Option.none
    | c :: cs => if c.isAlpha && (c :: cs).all schemeChar then some (pre, rest) else Option.none

/-- Embedded `urlparse`, restricted to the pair (scheme, netloc) that
`validate_url` consumes.  `none` models the `ValueError` CPython raises on a
netloc containing `[` without `]` or vice versa. -/
def pyUrlsplit (s : String) : Option (String × String) :=
  let u := (stripWhile isC0OrSpace s.data).filter (fun c => !isUnsafeUrlByte c)
  let p := match splitSchemeL u with
    | some (pre, r) => (lowerL pre, r)
    | Option.none => (([] : List Char), u)
  if "//".data.isPrefixOf p.2 then
    let netloc := (p.2.drop 2).takeWhile (fun c => !(c = '/' || c = '?' || c = '#'))
    if netloc.contains '[' != netloc.contains ']' then Option.none
    else some (String.mk p.1, String.mk netloc)
  else some (String.mk p.1, "")

/-- URL schemes `validate_url` blocks before any parsing. -/
def dangerousSchemes : List String := ["javascript:", "vbscript:", "file:", "about:"]

/-- Does the (already lowercased) URL start with a blocked scheme? -/
def startsWithAnyDanger (l : List Char) : Bool :=
  dangerousSchemes.any (fun p => p.data.isPrefixOf l)

/-- Embedded `validate_url`: empty check, blocked-scheme check on the
lowercased string, then structure checks on the `urlparse` result, with the
`data:image/` delegation to `validate_data_uri`; every exception raised
inside the `try` block resurfaces wrapped in an `Invalid URL format:`
message. -/
def validate_url (url : String) : Except PyErr Unit :=
  if url = "" then .error (.assetError "URL cannot be empty")
  else
    let url_lower := lowerL url.data
    if startsWithAnyDanger url_lower then
      .error (.assetError ("URL scheme not allowed: " ++ String.mk (url.data.takeWhile (· ≠ ':'))))
    else
      match pyUrlsplit url with
      | Option.none => .error (.assetError "Invalid URL format: Invalid IPv6 URL")
      | some (scheme, netloc) =>
        if scheme = "" ∨ netloc = "" then
          if "data:image/".data.isPrefixOf url_lower then
            match validate_data_uri url with
            | .ok _ => .ok ()
            | .error (.assetError m) => .error (.assetError ("Invalid URL format: " ++ m))
            | .error e => .error e
          else .error (.assetError "Invalid URL format: URL must have scheme and host")
        else if ¬ (scheme = "http" ∨ scheme = "https") then
          .error (.assetError ("Invalid URL format: URL scheme must be http or https, got: " ++ scheme))
        else .ok ()

/-! ## Content validators (validation.py lines 14–91) and `validate_asset`
(lines 191–269) -/

/-- Existence of a match of the pattern used by `validate_html_content`
(one tag-like substring): a literal `<`, a lowercase letter, then any
characters up to a later `>`. -/
def searchHtmlTag : List Char → Bool
  | [] => false
  | a :: t =>
    (decide (a = '<') && (match t with
      | c :: t2 => decide ('a' ≤ c ∧ c ≤ 'z') && t2.contains '>'
      | [] => false)) || searchHtmlTag t

/-- Embedded `validate_html_content`. -/
def validate_html_content (content : String) : Except PyErr Unit :=
  if content = "" then .error (.assetError "HTML content cannot be empty")
  else
    let cl := pyStrip (lowerL content.data)
    let has_html_tag := containsSub "<html".data cl || containsSub "<!doctype html>".data cl
    let has_body_tag := containsSub "<body".data cl
    if ¬ searchHtmlTag cl then
      .error (.assetError "HTML content must contain valid HTML tags")
    else if has_html_tag && !has_body_tag then
      .error (.assetError "HTML document must contain <body> tag")
    else .ok ()

/-- After an opening brace, is the next brace (if any) a closing one? -/
def nextBraceClose : List Char → Bool
  | [] => false
  | c :: t => if c = '}' then true else if c = '{' then false else nextBraceClose t

/-- Existence of a match of the `selector { declarations }` pattern used by
`validate_css_content`: a non-brace character immediately followed by `{`
whose next brace is `}`. -/
def searchCssRule : List Char → Bool
  | [] => false
  | a :: t =>
    ((!(decide (a = '{') || decide (a = '}'))) && (match t with
      | '{' :: t2 => nextBraceClose t2
      | _ => false)) || searchCssRule t

/-- Embedded `validate_css_content`. -/
def validate_css_content (content : String) : Except PyErr Unit :=
  if content = "" then .error (.assetError "CSS content cannot be empty")
  else if ¬ searchCssRule content.data then
    .error (.assetError "CSS content must contain at least one valid rule")
  else .ok ()

/-- Embedded `validate_javascript_content`. -/
def validate_javascript_content (content : String) : Except PyErr Unit :=
  if content = "" then .error (.assetError "JavaScript content cannot be empty")
  else if (pyStrip content.data).length < 5 then
    .error (.assetError "JavaScript content is too short to be valid")
  else .ok ()

/-- Embedded `validate_text_content` (its `isinstance` guard is discharged
by `validate_asset` before the call, so the argument is a string here). -/
def validate_text_content (content : String) : Except PyErr Unit :=
  if pyStrip content.data = [] then
    .error (.assetError "Text content cannot be empty")
  else .ok ()

/-- Embedded `validate_image_url` with `check_mime=False` (the only mode the
manifest validator uses; the optional remote HEAD request is out of the
embedded fragment). -/
def validate_image_url (url : String) : Except PyErr Unit :=
  if "data:".data.isPrefixOf url.data then validate_data_uri url
  else validate_url url

/-- Is this value the embedded string `s` (Python `v == s` for a string
literal: only strings compare equal to strings)? -/
def isStrVal (v : PyVal) (s : String) : Bool :=
  match v with
  | .str t => t = s
  | _ => false

/-- Is this value Python `None`? -/
def isNoneV : PyVal → Bool
  | .none => true
  | _ => false

/-- Python `isinstance(v, int)` (booleans are ints in Python). -/
def isIntLike : PyVal → Bool
  | .int _ => true
  | .bool _ => true
  | _ => false

/-- Numeric value of an int-like Python value. -/
def intLikeVal : PyVal → Int
  | .int n => n
  | .bool true => 1
  | .bool false => 0
  | _ => 0

/-- Rendering of a value inside an f-string error message (container values
are abbreviated; no embedded check inspects these message texts). -/
def pyStrOf : PyVal → String
  | .none => "None"
  | .bool true => "True"
  | .bool false => "False"
  | .int n => toString n
  | .float q => toString q
  | .str s => s
  | .list _ => "[list]"
  | .dict _ => "[dict]"

/-- Python type name of an embedded value (as it appears in an
`AttributeError` message). -/
def pyTypeName : PyVal → String
  | .none => "NoneType"
  | .bool _ => "bool"
  | .int _ => "int"
  | .float _ => "float"
  | .str _ => "str"
  | .list _ => "list"
  | .dict _ => "dict"

/-- Image formats `validate_asset` allows. -/
def allowedImageFormats : List String := ["jpg", "jpeg", "png", "gif", "webp", "svg"]

/-- Embedded `validate_asset`: dispatch on the asset's own declared
`asset_type`.  Mirrors the source branch for branch; note that a truthy
non-string image `format` value reaches `.lower()` and raises
`AttributeError` (`PyErr.uncaught`), which is not an
`AssetValidationError`. -/
def validate_asset (asset_data : PyVal) : Except PyErr Unit :=
  match asset_data with
  | .dict entries =>
    let asset_type := (pyGet entries "asset_type").getD PyVal.none
    if ¬ asset_type.truthy then .error (.assetError "Asset must have asset_type field")
    else if isStrVal asset_type "html" then
      match (pyGet entries "content").getD PyVal.none with
      | .str content => validate_html_content content
      | _ => .error (.assetError "HTML asset must have string content")
    else if isStrVal asset_type "css" then
      match (pyGet entries "content").getD PyVal.none with
      | .str content => validate_css_content content
      | _ => .error (.assetError "CSS asset must have string content")
    else if isStrVal asset_type "javascript" then
      match (pyGet entries "content").getD PyVal.none with
      | .str content => validate_javascript_content content
      | _ => .error (.assetError "JavaScript asset must have string content")
    else if isStrVal asset_type "text" then
      match (pyGet entries "content").getD PyVal.none with
      | .str content => validate_text_content content
      | _ => .error (.assetError "Text asset must have string content")
    else if isStrVal asset_type "url" then
      match (pyGet entries "url").getD PyVal.none with
      | .str u => validate_url u
      | _ => .error (.assetError "URL asset must have string url")
    else if isStrVal asset_type "image" then
      match (pyGet entries "url").getD PyVal.none with
      | .str u =>
        match validate_image_url u with
        | .error e => .error e
        | .ok _ =>
          let width := (pyGet entries "width").getD PyVal.none
          let height := (pyGet entries "height").getD PyVal.none
          if (!isNoneV width) && ((!isIntLike width) || decide (intLikeVal width < 1)) then
            .error (.assetError "Image width must be a positive integer")
          else if (!isNoneV height) && ((!isIntLike height) || decide (intLikeVal height < 1)) then
            .error (.assetError "Image height must be a positive integer")
          else
            let img_format := (pyGet entries "format").getD PyVal.none
            if img_format.truthy then
              match img_format with
              | .str f =>
                if ¬ allowedImageFormats.contains (String.mk (lowerL f.data)) then
                  .error (.assetError ("Image format not allowed: " ++ f))
                else .ok ()
              | v =>
                .error (.uncaught
                  ("'" ++ pyTypeName v ++ "' object has no attribute 'lower'"))
            else .ok ()
      | _ => .error (.assetError "Image asset must have string url")
    else if isStrVal asset_type "video" || isStrVal asset_type "audio" then
      match (pyGet entries "url").getD PyVal.none with
      | .str u => validate_url u
      | _ => .error (.assetError
          ((if isStrVal asset_type "video" then "Video" else "Audio") ++
            " asset must have string url"))
    else .error (.assetError ("Unknown asset_type: " ++ pyStrOf asset_type))
  | _ => .error (.assetError "Asset must be a dictionary")

/-! ## Format data model and `validate_manifest_assets`
(validation.py lines 272–317) -/

/-- One `AssetsRequired` declaration of a format, with the fields the
embedded operations consume (`asset_type` is the enum's value string;
advisory per-asset `requirements` and `asset_role` are informational only
and omitted). -/
structure AssetsRequired where
  asset_id : String
  asset_type : String
  required : Bool
deriving DecidableEq

/-- A registry `CreativeFormat`, with the fields the embedded operations
consume.  `requirements` is the open technical-requirements map
(`none` embeds Python `None`); `dimensions` is the legacy string attribute
read by `generate_preview_html` (no registry entry sets it, so it is `none`
throughout the registry). -/
structure CreativeFormat where
  format_id : String
  name : String
  type : String
  requirements : Option (List (String × PyVal))
  dimensions : Option String
  assets_required : List AssetsRequired

/-- The missing-required-asset message
`f"Missing required {asset_type} asset: '{asset_id}'"` (the `AssetType`
enum renders as its value string). -/
def missingAssetMsg (r : AssetsRequired) : String :=
  "Missing required " ++ r.asset_type ++ " asset: '" ++ r.asset_id ++ "'"

/-- Step 2 of `validate_manifest_assets`: one error per requirement that is
required, has a truthy `asset_id`, and whose `asset_id` is not a key of the
assets map; skipped entirely when no format is given or its
`assets_required` list is empty (Python truthiness of the list). -/
def missingRequiredErrors (format_obj : Option CreativeFormat)
    (assets : List (String × PyVal)) : List String :=
  match format_obj with
  | Option.none => []
  | some fmt =>
    if fmt.assets_required.isEmpty then []
    else
      (fmt.assets_required.filter fun r =>
        r.required && r.asset_id ≠ "" && (pyGet assets r.asset_id).isNone).map
        missingAssetMsg

/-- Step 3 of `validate_manifest_assets`: validate every present asset with
`validate_asset`, collecting `AssetValidationError`s as
`f"Asset '{asset_id}': {e}"` entries; any other exception propagates. -/
def assetErrorsLoop : List (String × PyVal) → Except PyErr (List String)
  | [] => .ok []
  | (aid, adata) :: rest =>
    match validate_asset adata with
    | .ok _ => assetErrorsLoop rest
    | .error (.assetError m) =>
      match assetErrorsLoop rest with
      | .ok es => .ok (("Asset '" ++ aid ++ "': " ++ m) :: es)
      | .error e => .error e
    | .error e => .error e

/-- Embedded `validate_manifest_assets` (with `check_remote_mime=False`, the
only mode its callers use): structural checks, then missing-required-asset
errors, then per-asset validation.  The returned value is the error list;
`Except.error` models an exception escaping the function. -/
def validate_manifest_assets (manifest : PyVal)
    (format_obj : Option CreativeFormat) : Except PyErr (List String) :=
  match manifest with
  | .dict m =>
    let assets := (pyGet m "assets").getD PyVal.none
    if ¬ assets.truthy then .ok ["Manifest must contain assets field"]
    else
      match assets with
      | .dict a =>
        match assetErrorsLoop a with
        | .ok es => .ok (missingRequiredErrors format_obj a ++ es)
        | .error e => .error e
      | _ => .ok ["Manifest assets must be a dictionary"]
  | _ => .ok ["Manifest must be a dictionary"]

/-! ## The static format registry (data/standard_formats.py lines 30–1275)

Each entry carries exactly the fields of the embedded `CreativeFormat`;
informational fields (agent_url, category, descriptions, macros, advisory
per-asset requirement maps) that no embedded operation reads are omitted,
and the legacy `dimensions` attribute is `none` because no registry entry
passes it. -/

/-- Registry entry `display_300x250_generative` from standard_formats.py. -/
def fmt_display_300x250_generative : CreativeFormat :=
  ⟨"display_300x250_generative", "Medium Rectangle - AI Generated", "display", some [("dimensions", PyVal.str "300x250")], none,
   [⟨"brand_context", "brand_manifest", true⟩,
    ⟨"generation_prompt", "text", true⟩]⟩

/-- Registry entry `display_728x90_generative` from standard_formats.py. -/
def fmt_display_728x90_generative : CreativeFormat :=
  ⟨"display_728x90_generative", "Leaderboard - AI Generated", "display", some [("dimensions", PyVal.str "728x90")], none,
   [⟨"brand_context", "brand_manifest", true⟩,
    ⟨"generation_prompt", "text", true⟩]⟩

/-- Registry entry `display_320x50_generative` from standard_formats.py. -/
def fmt_display_320x50_generative : CreativeFormat :=
  ⟨"display_320x50_generative", "Mobile Banner - AI Generated", "display", some [("dimensions", PyVal.str "320x50")], none,
   [⟨"brand_context", "brand_manifest", true⟩,
    ⟨"generation_prompt", "text", true⟩]⟩

/-- Registry entry `display_160x600_generative` from standard_formats.py. -/
def fmt_display_160x600_generative : CreativeFormat :=
  ⟨"display_160x600_generative", "Wide Skyscraper - AI Generated", "display", some [("dimensions", PyVal.str "160x600")], none,
   [⟨"brand_context", "brand_manifest", true⟩,
    ⟨"generation_prompt", "text", true⟩]⟩

/-- Registry entry `display_336x280_generative` from standard_formats.py. -/
def fmt_display_336x280_generative : CreativeFormat :=
  ⟨"display_336x280_generative", "Large Rectangle - AI Generated", "display", some [("dimensions", PyVal.str "336x280")], none,
   [⟨"brand_context", "brand_manifest", true⟩,
    ⟨"generation_prompt", "text", true⟩]⟩

/-- Registry entry `display_300x600_generative` from standard_formats.py. -/
def fmt_display_300x600_generative : CreativeFormat :=
  ⟨"display_300x600_generative", "Half Page - AI Generated", "display", some [("dimensions", PyVal.str "300x600")], none,
   [⟨"brand_context", "brand_manifest", true⟩,
    ⟨"generation_prompt", "text", true⟩]⟩

/-- Registry entry `display_970x250_generative` from standard_formats.py. -/
def fmt_display_970x250_generative : CreativeFormat :=
  ⟨"display_970x250_generative", "Billboard - AI Generated", "display", some [("dimensions", PyVal.str "970x250")], none,
   [⟨"brand_context", "brand_manifest", true⟩,
    ⟨"generation_prompt", "text", true⟩]⟩

/-- Registry entry `video_standard_30s` from standard_formats.py. -/
def fmt_video_standard_30s : CreativeFormat :=
  ⟨"video_standard_30s", "Standard Video - 30 seconds", "video", some [("duration_seconds", PyVal.int 30), ("max_file_size_mb", PyVal.int 50), ("acceptable_formats", PyVal.list [PyVal.str "mp4", PyVal.str "mov", PyVal.str "webm"]), ("aspect_ratios", PyVal.list [PyVal.str "16:9", PyVal.str "9:16", PyVal.str "1:1", PyVal.str "4:5"])], none,
   [⟨"video_file", "video", true⟩]⟩

/-- Registry entry `video_standard_15s` from standard_formats.py. -/
def fmt_video_standard_15s : CreativeFormat :=
  ⟨"video_standard_15s", "Standard Video - 15 seconds", "video", some [("duration_seconds", PyVal.int 15), ("max_file_size_mb", PyVal.int 25), ("acceptable_formats", PyVal.list [PyVal.str "mp4", PyVal.str "mov", PyVal.str "webm"]), ("aspect_ratios", PyVal.list [PyVal.str "16:9", PyVal.str "9:16", PyVal.str "1:1", PyVal.str "4:5"])], none,
   [⟨"video_file", "video", true⟩]⟩

/-- Registry entry `video_vast_30s` from standard_formats.py. -/
def fmt_video_vast_30s : CreativeFormat :=
  ⟨"video_vast_30s", "VAST Video - 30 seconds", "video", some [("duration_seconds", PyVal.int 30)], none,
   [⟨"vast_tag", "text", true⟩]⟩

/-- Registry entry `video_1920x1080` from standard_formats.py. -/
def fmt_video_1920x1080 : CreativeFormat :=
  ⟨"video_1920x1080", "Full HD Video - 1920x1080", "video", some [("dimensions", PyVal.str "1920x1080"), ("max_file_size_mb", PyVal.int 100), ("acceptable_formats", PyVal.list [PyVal.str "mp4", PyVal.str "mov", PyVal.str "webm"]), ("aspect_ratios", PyVal.list [PyVal.str "16:9"])], none,
   [⟨"video_file", "video", true⟩]⟩

/-- Registry entry `video_1280x720` from standard_formats.py. -/
def fmt_video_1280x720 : CreativeFormat :=
  ⟨"video_1280x720", "HD Video - 1280x720", "video", some [("dimensions", PyVal.str "1280x720"), ("max_file_size_mb", PyVal.int 75), ("acceptable_formats", PyVal.list [PyVal.str "mp4", PyVal.str "mov", PyVal.str "webm"]), ("aspect_ratios", PyVal.list [PyVal.str "16:9"])], none,
   [⟨"video_file", "video", true⟩]⟩

/-- Registry entry `video_1080x1920` from standard_formats.py. -/
def fmt_video_1080x1920 : CreativeFormat :=
  ⟨"video_1080x1920", "Vertical Video - 1080x1920", "video", some [("dimensions", PyVal.str "1080x1920"), ("max_file_size_mb", PyVal.int 100), ("acceptable_formats", PyVal.list [PyVal.str "mp4", PyVal.str "mov", PyVal.str "webm"]), ("aspect_ratios", PyVal.list [PyVal.str "9:16"])], none,
   [⟨"video_file", "video", true⟩]⟩

/-- Registry entry `video_1080x1080` from standard_formats.py. -/
def fmt_video_1080x1080 : CreativeFormat :=
  ⟨"video_1080x1080", "Square Video - 1080x1080", "video", some [("dimensions", PyVal.str "1080x1080"), ("max_file_size_mb", PyVal.int 100), ("acceptable_formats", PyVal.list [PyVal.str "mp4", PyVal.str "mov", PyVal.str "webm"]), ("aspect_ratios", PyVal.list [PyVal.str "1:1"])], none,
   [⟨"video_file", "video", true⟩]⟩

/-- Registry entry `video_ctv_preroll_30s` from standard_formats.py. -/
def fmt_video_ctv_preroll_30s : CreativeFormat :=
  ⟨"video_ctv_preroll_30s", "CTV Pre-Roll - 30 seconds", "video", some [("duration_seconds", PyVal.int 30), ("max_file_size_mb", PyVal.int 75), ("acceptable_formats", PyVal.list [PyVal.str "mp4", PyVal.str "mov"]), ("aspect_ratios", PyVal.list [PyVal.str "16:9"])], none,
   [⟨"video_file", "video", true⟩]⟩

/-- Registry entry `video_ctv_midroll_30s` from standard_formats.py. -/
def fmt_video_ctv_midroll_30s : CreativeFormat :=
  ⟨"video_ctv_midroll_30s", "CTV Mid-Roll - 30 seconds", "video", some [("duration_seconds", PyVal.int 30), ("max_file_size_mb", PyVal.int 75), ("acceptable_formats", PyVal.list [PyVal.str "mp4", PyVal.str "mov"]), ("aspect_ratios", PyVal.list [PyVal.str "16:9"])], none,
   [⟨"video_file", "video", true⟩]⟩

/-- Registry entry `display_300x250_image` from standard_formats.py. -/
def fmt_display_300x250_image : CreativeFormat :=
  ⟨"display_300x250_image", "Medium Rectangle - Image", "display", some [("dimensions", PyVal.str "300x250")], none,
   [⟨"banner_image", "image", true⟩,
    ⟨"click_url", "url", true⟩]⟩

/-- Registry entry `display_728x90_image` from standard_formats.py. -/
def fmt_display_728x90_image : CreativeFormat :=
  ⟨"display_728x90_image", "Leaderboard - Image", "display", some [("dimensions", PyVal.str "728x90")], none,
   [⟨"banner_image", "image", true⟩,
    ⟨"click_url", "url", true⟩]⟩

/-- Registry entry `display_320x50_image` from standard_formats.py. -/
def fmt_display_320x50_image : CreativeFormat :=
  ⟨"display_320x50_image", "Mobile Banner - Image", "display", some [("dimensions", PyVal.str "320x50")], none,
   [⟨"banner_image", "image", true⟩,
    ⟨"click_url", "url", true⟩]⟩

/-- Registry entry `display_160x600_image` from standard_formats.py. -/
def fmt_display_160x600_image : CreativeFormat :=
  ⟨"display_160x600_image", "Wide Skyscraper - Image", "display", some [("dimensions", PyVal.str "160x600")], none,
   [⟨"banner_image", "image", true⟩,
    ⟨"click_url", "url", true⟩]⟩

/-- Registry entry `display_336x280_image` from standard_formats.py. -/
def fmt_display_336x280_image : CreativeFormat :=
  ⟨"display_336x280_image", "Large Rectangle - Image", "display", some [("dimensions", PyVal.str "336x280")], none,
   [⟨"banner_image", "image", true⟩,
    ⟨"click_url", "url", true⟩]⟩

/-- Registry entry `display_300x600_image` from standard_formats.py. -/
def fmt_display_300x600_image : CreativeFormat :=
  ⟨"display_300x600_image", "Half Page - Image", "display", some [("dimensions", PyVal.str "300x600")], none,
   [⟨"banner_image", "image", true⟩,
    ⟨"click_url", "url", true⟩]⟩

/-- Registry entry `display_970x250_image` from standard_formats.py. -/
def fmt_display_970x250_image : CreativeFormat :=
  ⟨"display_970x250_image", "Billboard - Image", "display", some [("dimensions", PyVal.str "970x250")], none,
   [⟨"banner_image", "image", true⟩,
    ⟨"click_url", "url", true⟩]⟩

/-- Registry entry `display_300x250_html` from standard_formats.py. -/
def fmt_display_300x250_html : CreativeFormat :=
  ⟨"display_300x250_html", "Medium Rectangle - HTML5", "display", some [("dimensions", PyVal.str "300x250")], none,
   [⟨"html_creative", "html", true⟩]⟩

/-- Registry entry `display_728x90_html` from standard_formats.py. -/
def fmt_display_728x90_html : CreativeFormat :=
  ⟨"display_728x90_html", "Leaderboard - HTML5", "display", some [("dimensions", PyVal.str "728x90")], none,
   [⟨"html_creative", "html", true⟩]⟩

/-- Registry entry `display_160x600_html` from standard_formats.py. -/
def fmt_display_160x600_html : CreativeFormat :=
  ⟨"display_160x600_html", "Wide Skyscraper - HTML5", "display", some [("dimensions", PyVal.str "160x600")], none,
   [⟨"html_creative", "html", true⟩]⟩

/-- Registry entry `display_336x280_html` from standard_formats.py. -/
def fmt_display_336x280_html : CreativeFormat :=
  ⟨"display_336x280_html", "Large Rectangle - HTML5", "display", some [("dimensions", PyVal.str "336x280")], none,
   [⟨"html_creative", "html", true⟩]⟩

/-- Registry entry `display_300x600_html` from standard_formats.py. -/
def fmt_display_300x600_html : CreativeFormat :=
  ⟨"display_300x600_html", "Half Page - HTML5", "display", some [("dimensions", PyVal.str "300x600")], none,
   [⟨"html_creative", "html", true⟩]⟩

/-- Registry entry `display_970x250_html` from standard_formats.py. -/
def fmt_display_970x250_html : CreativeFormat :=
  ⟨"display_970x250_html", "Billboard - HTML5", "display", some [("dimensions", PyVal.str "970x250")], none,
   [⟨"html_creative", "html", true⟩]⟩

/-- Registry entry `native_standard` from standard_formats.py. -/
def fmt_native_standard : CreativeFormat :=
  ⟨"native_standard", "IAB Native Standard", "native", none, none,
   [⟨"title", "text", true⟩,
    ⟨"description", "text", true⟩,
    ⟨"main_image", "image", true⟩,
    ⟨"icon", "image", false⟩,
    ⟨"cta_text", "text", true⟩,
    ⟨"sponsored_by", "text", true⟩]⟩

/-- Registry entry `native_content` from standard_formats.py. -/
def fmt_native_content : CreativeFormat :=
  ⟨"native_content", "Native Content Placement", "native", none, none,
   [⟨"headline", "text", true⟩,
    ⟨"body", "text", true⟩,
    ⟨"thumbnail", "image", true⟩,
    ⟨"author", "text", false⟩,
    ⟨"click_url", "url", true⟩,
    ⟨"disclosure", "text", true⟩]⟩

/-- Registry entry `audio_standard_15s` from standard_formats.py. -/
def fmt_audio_standard_15s : CreativeFormat :=
  ⟨"audio_standard_15s", "Standard Audio - 15 seconds", "audio", some [("duration_seconds", PyVal.int 15), ("max_file_size_mb", PyVal.float (3 / 4 : Rat)), ("acceptable_formats", PyVal.list [PyVal.str "mp3", PyVal.str "aac", PyVal.str "m4a"])], none,
   [⟨"audio_file", "audio", true⟩]⟩

/-- Registry entry `audio_standard_30s` from standard_formats.py. -/
def fmt_audio_standard_30s : CreativeFormat :=
  ⟨"audio_standard_30s", "Standard Audio - 30 seconds", "audio", some [("duration_seconds", PyVal.int 30), ("max_file_size_mb", PyVal.float (3 / 2 : Rat)), ("acceptable_formats", PyVal.list [PyVal.str "mp3", PyVal.str "aac", PyVal.str "m4a"])], none,
   [⟨"audio_file", "audio", true⟩]⟩

/-- Registry entry `audio_standard_60s` from standard_formats.py. -/
def fmt_audio_standard_60s : CreativeFormat :=
  ⟨"audio_standard_60s", "Standard Audio - 60 seconds", "audio", some [("duration_seconds", PyVal.int 60), ("max_file_size_mb", PyVal.int 3), ("acceptable_formats", PyVal.list [PyVal.str "mp3", PyVal.str "aac", PyVal.str "m4a"])], none,
   [⟨"audio_file", "audio", true⟩]⟩

/-- Registry entry `dooh_billboard_1920x1080` from standard_formats.py. -/
def fmt_dooh_billboard_1920x1080 : CreativeFormat :=
  ⟨"dooh_billboard_1920x1080", "Digital Billboard - 1920x1080", "dooh", some [("dimensions", PyVal.str "1920x1080"), ("duration_seconds", PyVal.int 10), ("max_file_size_mb", PyVal.int 5)], none,
   [⟨"billboard_image", "image", true⟩]⟩

/-- Registry entry `dooh_billboard_landscape` from standard_formats.py. -/
def fmt_dooh_billboard_landscape : CreativeFormat :=
  ⟨"dooh_billboard_landscape", "Digital Billboard - Landscape", "dooh", some [("duration_seconds", PyVal.int 10), ("max_file_size_mb", PyVal.int 10), ("aspect_ratios", PyVal.list [PyVal.str "16:9", PyVal.str "21:9"])], none,
   [⟨"billboard_image", "image", true⟩]⟩

/-- Registry entry `dooh_billboard_portrait` from standard_formats.py. -/
def fmt_dooh_billboard_portrait : CreativeFormat :=
  ⟨"dooh_billboard_portrait", "Digital Billboard - Portrait", "dooh", some [("duration_seconds", PyVal.int 10), ("max_file_size_mb", PyVal.int 10), ("aspect_ratios", PyVal.list [PyVal.str "9:16"])], none,
   [⟨"billboard_image", "image", true⟩]⟩

/-- Registry entry `dooh_transit_screen` from standard_formats.py. -/
def fmt_dooh_transit_screen : CreativeFormat :=
  ⟨"dooh_transit_screen", "Transit Screen", "dooh", some [("dimensions", PyVal.str "1920x1080"), ("duration_seconds", PyVal.int 15), ("max_file_size_mb", PyVal.int 5)], none,
   [⟨"screen_image", "image", true⟩]⟩

/-- The full registry `STANDARD_FORMATS` (38 entries, definition order). -/
def STANDARD_FORMATS : List CreativeFormat :=
  [fmt_display_300x250_generative,
   fmt_display_728x90_generative,
   fmt_display_320x50_generative,
   fmt_display_160x600_generative,
   fmt_display_336x280_generative,
   fmt_display_300x600_generative,
   fmt_display_970x250_generative,
   fmt_video_standard_30s,
   fmt_video_standard_15s,
   fmt_video_vast_30s,
   fmt_video_1920x1080,
   fmt_video_1280x720,
   fmt_video_1080x1920,
   fmt_video_1080x1080,
   fmt_video_ctv_preroll_30s,
   fmt_video_ctv_midroll_30s,
   fmt_display_300x250_image,
   fmt_display_728x90_image,
   fmt_display_320x50_image,
   fmt_display_160x600_image,
   fmt_display_336x280_image,
   fmt_display_300x600_image,
   fmt_display_970x250_image,
   fmt_display_300x250_html,
   fmt_display_728x90_html,
   fmt_display_160x600_html,
   fmt_display_336x280_html,
   fmt_display_300x600_html,
   fmt_display_970x250_html,
   fmt_native_standard,
   fmt_native_content,
   fmt_audio_standard_15s,
   fmt_audio_standard_30s,
   fmt_audio_standard_60s,
   fmt_dooh_billboard_1920x1080,
   fmt_dooh_billboard_landscape,
   fmt_dooh_billboard_portrait,
   fmt_dooh_transit_screen]

/-! ## Registry lookup and the format query engine
(data/standard_formats.py lines 1278–1402) -/

/-- Embedded `get_format_by_id`: first registry entry with the given id.
(The server wraps ids in a generated `FormatId` object whose comparison the
generated schema layer resolves back to the plain string id, as the
integration tests pin down; the embedded lookup works on the string id.) -/
def get_format_by_id (format_id : String) : Option CreativeFormat :=
  STANDARD_FORMATS.find? (fun fmt => fmt.format_id = format_id)

/-- Python truthiness of an optional int argument
(`any([max_width, ...])` counts `0` as absent). -/
def optIntTruthy : Option Int → Bool
  | some v => v != 0
  | Option.none => false

/-- Python truthiness of an optional list argument. -/
def optListTruthy : Option (List String) → Bool
  | some l => !l.isEmpty
  | Option.none => false

/-- Python truthiness of an optional string argument. -/
def optStrTruthy : Option String → Bool
  | some s => s != ""
  | Option.none => false

/-- The inner `get_dimensions` helper of `filter_formats`: parse
`requirements["dimensions"]` as `"WIDTHxHEIGHT"`; any failure (no
requirements map, missing or non-string key, wrong piece count, non-numeric
piece) yields `(None, None)`. -/
def get_dimensions (fmt : CreativeFormat) : Option Int × Option Int :=
  match fmt.requirements with
  | some reqs =>
    if !reqs.isEmpty then
      match pyGet reqs "dimensions" with
      | some (PyVal.str dims) =>
        if dims.data.contains 'x' then
          match splitAllOn 'x' dims.data with
          | [p1, p2] =>
            match pyInt p1, pyInt p2 with
            | some w, some h => (some w, some h)
            | _, _ => (Option.none, Option.none)
          | _ => (Option.none, Option.none)
        else (Option.none, Option.none)
      | _ => (Option.none, Option.none)
    else (Option.none, Option.none)
  | Option.none => (Option.none, Option.none)

/-- Does a format pass the dimension-bound loop body?  Formats without
parsed dimensions are skipped; each bound that `is not None` is enforced
inclusively (note the contrast with the truthiness guard that decides
whether this loop runs at all). -/
def dimFilterPass (maxW maxH minW minH : Option Int) (fmt : CreativeFormat) : Bool :=
  match get_dimensions fmt with
  | (some w, some h) =>
    (match maxW with | some v => decide (w ≤ v) | Option.none => true) &&
    (match maxH with | some v => decide (h ≤ v) | Option.none => true) &&
    (match minW with | some v => decide (v ≤ w) | Option.none => true) &&
    (match minH with | some v => decide (v ≤ h) | Option.none => true)
  | _ => false

/-- Does a format have a truthy `requirements["dimensions"]` entry (the
`is_responsive` criterion)? -/
def hasTruthyDims (fmt : CreativeFormat) : Bool :=
  match fmt.requirements with
  | some reqs =>
    (!reqs.isEmpty) &&
      (match pyGet reqs "dimensions" with
       | some v => v.truthy
       | Option.none => false)
  | Option.none => false

/-- The exact-dimensions criterion: the format has a (truthy) requirements
map whose `dimensions` entry compares equal to the supplied string. -/
def dimExactPass (d : String) (fmt : CreativeFormat) : Bool :=
  match fmt.requirements with
  | some reqs =>
    (!reqs.isEmpty) &&
      (match pyGet reqs "dimensions" with
       | some v => isStrVal v d
       | Option.none => false)
  | Option.none => false

/-- The asset-types criterion: `assets_required` is nonempty and covers
every requested asset type (AND semantics). -/
def assetTypesPass (ats : List String) (fmt : CreativeFormat) : Bool :=
  (!fmt.assets_required.isEmpty) &&
    ats.all (fun t => fmt.assets_required.any (fun r => r.asset_type = t))

/-- Narrowing pass 1: `if format_ids:` keep only listed ids. -/
def passIds (format_ids : Option (List String)) (l : List CreativeFormat) :
    List CreativeFormat :=
  if optListTruthy format_ids then
    l.filter (fun fmt => (format_ids.getD []).contains fmt.format_id)
  else l

/-- Narrowing pass 2: `if type:` keep only the given type (string form, as
the MCP tool layer supplies it). -/
def passType (type : Option String) (l : List CreativeFormat) : List CreativeFormat :=
  if optStrTruthy type then l.filter (fun fmt => fmt.type = type.getD "") else l

/-- Narrowing pass 3: `if dimensions:` exact dimensions match. -/
def passDimExact (dimensions : Option String) (l : List CreativeFormat) :
    List CreativeFormat :=
  if optStrTruthy dimensions then l.filter (dimExactPass (dimensions.getD "")) else l

/-- Narrowing pass 4: the dimension-bound loop, guarded by
`any([max_width, max_height, min_width, min_height])` — Python truthiness,
so a bound supplied as `0` does not activate the pass. -/
def passDimBounds (maxW maxH minW minH : Option Int) (l : List CreativeFormat) :
    List CreativeFormat :=
  if optIntTruthy maxW || optIntTruthy maxH || optIntTruthy minW || optIntTruthy minH then
    l.filter (dimFilterPass maxW maxH minW minH)
  else l

/-- Narrowing pass 5: `if is_responsive is not None:`. -/
def passResponsive (r : Option Bool) (l : List CreativeFormat) : List CreativeFormat :=
  match r with
  | some true => l.filter (fun fmt => !hasTruthyDims fmt)
  | some false => l.filter hasTruthyDims
  | Option.none => l

/-- Narrowing pass 6: `if name_search:` case-insensitive substring match. -/
def passNameSearch (ns : Option String) (l : List CreativeFormat) : List CreativeFormat :=
  if optStrTruthy ns then
    l.filter (fun fmt => containsSub (lowerL (ns.getD "").data) (lowerL fmt.name.data))
  else l

/-- Narrowing pass 7: `if asset_types:`. -/
def passAssetTypes (ats : Option (List String)) (l : List CreativeFormat) :
    List CreativeFormat :=
  if optListTruthy ats then l.filter (assetTypesPass (ats.getD [])) else l

/-- Embedded `filter_formats`: the seven narrowing passes applied to the
registry in source order (ids, type, exact dimensions, dimension bounds,
responsiveness, name search, asset types). -/
def filter_formats (format_ids : Option (List String)) (type : Option String)
    (asset_types : Option (List String)) (dimensions : Option String)
    (max_width max_height min_width min_height : Option Int)
    (is_responsive : Option Bool) (name_search : Option String) :
    List CreativeFormat :=
  passAssetTypes asset_types
    (passNameSearch name_search
      (passResponsive is_responsive
        (passDimBounds max_width max_height min_width min_height
          (passDimExact dimensions
            (passType type
              (passIds format_ids STANDARD_FORMATS))))))

/-! ## Preview rendering (storage.py lines 59–156) and the
`preview_creative` pipeline (server.py lines 133–293)

The literal HTML text assembled by `generate_preview_html` is abstracted to
the data interpolated into it (target width/height, chosen image and click
URLs, format name, variant label); the S3 upload is the pure URL it
returns; `uuid4` is an explicit `preview_id` parameter.  The
`CreativeManifest`/`PreviewCreativeRequest` wrapper classes live in
generated schema modules outside the embedded sources; their observable
behavior (the manifest acts as a mapping whose `assets` attribute is the
assets mapping, and format-id wrappers compare by plain id and agent URL)
is modelled from the spec and the repository's integration tests. -/

/-- String content of an optional value, empty for anything non-string
(used by the format-id normalization). -/
def strOrEmpty : Option PyVal → String
  | some (.str s) => s
  | _ => ""

/-- A preview document: the data `generate_preview_html` interpolates into
its HTML template. -/
structure PreviewDoc where
  width : Int
  height : Int
  image_url : Option PyVal
  click_url : Option PyVal
  format_name : String
  variant_name : String

/-- First asset in the manifest's asset map (insertion order) that is a
dict declaring `asset_type == t`; yields its `url` field (possibly `None`). -/
def firstAssetUrl (assets : List (String × PyVal)) (t : String) : Option PyVal :=
  match assets with
  | [] => Option.none
  | (_, v) :: rest =>
    match v with
    | .dict entries =>
      if isStrVal ((pyGet entries "asset_type").getD PyVal.none) t then
        some ((pyGet entries "url").getD PyVal.none)
      else firstAssetUrl rest t
    | _ => firstAssetUrl rest t

/-- Dimension selection of `generate_preview_html` (storage.py lines
70–77): width/height start at 300×250 — for every format type — and are
overwritten from the format's legacy `dimensions` attribute when it is
truthy and splits on `x` into exactly two pieces; `int()` on a non-numeric
piece raises `ValueError`, which escapes the function. -/
def previewDims (dims : Option String) : Except PyErr (Int × Int) :=
  match dims with
  | some d =>
    if d ≠ "" then
      match splitAllOn 'x' d.data with
      | [p1, p2] =>
        match pyInt p1 with
        | some w =>
          match pyInt p2 with
          | some h => .ok (w, h)
          | Option.none => .error (.uncaught "ValueError: invalid literal for int()")
        | Option.none => .error (.uncaught "ValueError: invalid literal for int()")
      | _ => .ok ((300 : Int), (250 : Int))
    else .ok ((300 : Int), (250 : Int))
  | Option.none => .ok ((300 : Int), (250 : Int))

/-- Embedded `generate_preview_html`: choose target dimensions, the first
image asset and the first url asset, and label the document with the format
name and variant name. -/
def generate_preview_html (fmt : CreativeFormat)
    (assets : List (String × PyVal)) (input_name : String) :
    Except PyErr PreviewDoc :=
  match previewDims fmt.dimensions with
  | .error e => .error e
  | .ok wh =>
    .ok { width := wh.1, height := wh.2,
          image_url := firstAssetUrl assets "image",
          click_url := firstAssetUrl assets "url",
          format_name := fmt.name, variant_name := input_name }

/-- One requested preview variant: a name and a macro map. -/
structure PreviewInput where
  name : String
  macros : List (String × String)
deriving DecidableEq

/-- One produced preview artifact (its input echo and stored-document URL). -/
structure PreviewVariantOut where
  preview_id : String
  preview_url : String
  input_name : String
  input_macros : List (String × String)
deriving DecidableEq

/-- The agent URL as pydantic renders it (trailing slash added by `AnyUrl`). -/
def AGENT_URL_STR : String := "https://creative.adcontextprotocol.org/"

/-- The three default variants synthesized when the caller supplies no
inputs (server.py lines 222–227). -/
def defaultPreviewInputs : List PreviewInput :=
  [⟨"Desktop", [("DEVICE_TYPE", "desktop")]⟩,
   ⟨"Mobile", [("DEVICE_TYPE", "mobile")]⟩,
   ⟨"Tablet", [("DEVICE_TYPE", "tablet")]⟩]

/-- Variant file name: `input_set.name.lower().replace(" ", "-")`. -/
def variantFileName (name : String) : String :=
  String.mk ((lowerL name.data).map (fun c => if c = ' ' then '-' else c))

/-- Public URL returned by `upload_preview_html` (storage.py lines 29–56,
with the default bucket name). -/
def uploadPreviewUrl (preview_id variant_name : String) : String :=
  "https://adcp-previews.fly.storage.tigris.dev/previews/" ++ preview_id ++
    "/" ++ variant_name ++ ".html"

/-- `normalize_format_id_for_comparison` on a manifest-side value
(server.py lines 33–44): a dict yields its `id`/`agent_url` fields,
anything else the empty pair. -/
def normalizeFormatIdDict (v : PyVal) : String × String :=
  match v with
  | .dict d => (strOrEmpty (pyGet d "id"), strOrEmpty (pyGet d "agent_url"))
  | _ => ("", "")

/-- The manifest's asset map (empty when absent; the callers below only
reach this after `validate_manifest_assets` has established it is a
nonempty dict). -/
def manifestAssets (manifest : PyVal) : List (String × PyVal) :=
  match manifest with
  | .dict m =>
    match pyGet m "assets" with
    | some (.dict a) => a
    | _ => []
  | _ => []

/-- The per-variant loop of `preview_creative`: render, upload, and echo
the input; a failure aborts the whole batch (the exception reaches the
boundary handler). -/
def previewLoop (fmt : CreativeFormat) (manifest : PyVal) (preview_id : String) :
    List PreviewInput → Except String (List PreviewVariantOut)
  | [] => .ok []
  | inp :: rest =>
    match generate_preview_html fmt (manifestAssets manifest) inp.name with
    | .error _ => .error "Preview generation failed"
    | .ok _doc =>
      match previewLoop fmt manifest preview_id rest with
      | .ok ps =>
        .ok ({ preview_id := preview_id,
               preview_url := uploadPreviewUrl preview_id (variantFileName inp.name),
               input_name := inp.name, input_macros := inp.macros } :: ps)
      | .error e => .error e

/-- Embedded `preview_creative` after request parsing: format lookup,
manifest/request format-id agreement, manifest validation, then one
preview per input variant — with the three device defaults synthesized when
no variants are requested.  Boundary error replies are modelled by their
error kind tag. -/
def preview_creative (format_id : String) (manifest : PyVal)
    (inputs : Option (List PreviewInput)) (preview_id : String) :
    Except String (List PreviewVariantOut) :=
  match get_format_by_id format_id with
  | Option.none => .error ("Format " ++ format_id ++ " not found")
  | some fmt =>
    let mfid := match manifest with
      | .dict m => (pyGet m "format_id").getD PyVal.none
      | _ => PyVal.none
    if mfid.truthy && decide (normalizeFormatIdDict mfid ≠ (format_id, AGENT_URL_STR)) then
      .error "Manifest format_id does not match request format_id"
    else
      match validate_manifest_assets manifest (some fmt) with
      | .error _ => .error "Preview generation failed"
      | .ok errs =>
        if !errs.isEmpty then .error "Asset validation failed"
        else
          let inputsUsed := match inputs with
            | some l => if l.isEmpty then defaultPreviewInputs else l
            | Option.none => defaultPreviewInputs
          previewLoop fmt manifest preview_id inputsUsed

/-! ## Concrete inputs and claim-side predicates used by the theorems -/

/-- The three structural error messages of `validate_manifest_assets`. -/
def structuralMsgs : List String :=
  ["Manifest must be a dictionary", "Manifest must contain assets field",
   "Manifest assets must be a dictionary"]

/-- Is this a missing-required-asset error entry? -/
def isMissingErrMsg (e : String) : Bool :=
  "Missing required ".data.isPrefixOf e.data

/-- Is this a per-asset validation error entry? -/
def isPerAssetErrMsg (e : String) : Bool :=
  "Asset '".data.isPrefixOf e.data

/-- Number of requirements of a format that are required, have a truthy
`asset_id`, and whose id is absent from the given asset map. -/
def requiredAbsentCount (f : CreativeFormat) (assets : List (String × PyVal)) : Nat :=
  (f.assets_required.filter fun r =>
    r.required && r.asset_id ≠ "" && (pyGet assets r.asset_id).isNone).length

/-- A valid image asset for `display_300x250_image` (the spec's end-to-end
scenario). -/
def exampleBannerImage : PyVal :=
  PyVal.dict [("asset_type", PyVal.str "image"),
    ("url", PyVal.str "https://example.com/banner.png"),
    ("width", PyVal.int 300), ("height", PyVal.int 250),
    ("format", PyVal.str "png")]

/-- A valid url asset for `display_300x250_image`. -/
def exampleClickUrl : PyVal :=
  PyVal.dict [("asset_type", PyVal.str "url"),
    ("url", PyVal.str "https://example.com/landing")]

/-- The spec's end-to-end manifest: both required assets supplied. -/
def exampleManifest : PyVal :=
  PyVal.dict [("assets", PyVal.dict
    [("banner_image", exampleBannerImage), ("click_url", exampleClickUrl)])]

/-- The same manifest with the required `click_url` omitted. -/
def exampleManifestMissingClick : PyVal :=
  PyVal.dict [("assets", PyVal.dict [("banner_image", exampleBannerImage)])]

/-- A manifest whose `click_url` entry declares `asset_type` `text` (valid
as a text asset) although the format's requirement for that id declares
`url`. -/
def c4MismatchManifest : PyVal :=
  PyVal.dict [("assets", PyVal.dict
    [("banner_image", exampleBannerImage),
     ("click_url", PyVal.dict [("asset_type", PyVal.str "text"),
       ("content", PyVal.str "hello")])])]

/-- An image asset whose `format` field is the integer 1: truthy, so the
code calls `.lower()` on it and raises `AttributeError`. -/
def c2FailingAsset : PyVal :=
  PyVal.dict [("asset_type", PyVal.str "image"),
    ("url", PyVal.str "https://example.com/a.png"),
    ("format", PyVal.int 1)]

/-- A manifest containing `c2FailingAsset`. -/
def c2FailingManifest : PyVal :=
  PyVal.dict [("assets", PyVal.dict [("a", c2FailingAsset)])]

/-- Does a format either lack a `requirements["dimensions"]` entry or parse
it successfully?  (Registry-wide fact used to justify that every format
surviving an exact-dimensions filter has parsed width/height.) -/
def dimsEntryParsed (f : CreativeFormat) : Bool :=
  match f.requirements with
  | some reqs =>
    match pyGet reqs "dimensions" with
    | some _ => (get_dimensions f).1.isSome && (get_dimensions f).2.isSome
    | Option.none => true
  | Option.none => true

/-- Every data URI accepted by `validate_data_uri` satisfies the code-level
success condition and conversely (same primitives on both sides, so this is
the bridge used by the claim theorems). -/
theorem validate_data_uri_iff (uri : String) :
    validate_data_uri uri = .ok () ↔ dataUriCodeOk uri = true := by
  unfold validate_data_uri dataUriCodeOk
  by_cases hp : "data:".data.isPrefixOf uri.data
  · simp only [hp, not_true, if_false, Bool.true_and]
    cases h : splitFirst ',' uri.data with
    | none => simp
    | some pr =>
      obtain ⟨header, data⟩ := pr
      by_cases hm : headerMime header ∈ allowedImageMimes
      · by_cases hs : data.length > dataUriLimit
        · simp [hm, hs, List.elem_iff, Nat.not_le_of_lt hs]
        · simp [hm, hs, List.elem_iff, Nat.le_of_not_lt hs]
      · simp [hm, List.elem_iff]
  · simp [hp]

/-- C6 (amended): `validate_data_uri` succeeds exactly when the string starts
with `data:`, contains a comma, its MIME field — the header up to the first
semicolon with **every** occurrence of `data:` removed (this is what
`.replace("data:", "")` does, not a single prefix strip) — is allow-listed,
and the payload after the first comma is at most 10 * 1024 * 1024 characters;
in particular a URI whose MIME field is `text/html` is rejected regardless of
size, and one whose payload exceeds the limit is rejected regardless of MIME
type. -/
theorem c6_data_uri_characterization :
    (∀ uri, validate_data_uri uri = .ok () ↔ dataUriCodeOk uri = true) ∧
    (∀ uri header data, splitFirst ',' uri.data = some (header, data) →
      headerMime header = "text/html" → validate_data_uri uri ≠ .ok ()) ∧
    (∀ uri header data, splitFirst ',' uri.data = some (header, data) →
      dataUriLimit < data.length → validate_data_uri uri ≠ .ok ()) := by
  refine ⟨validate_data_uri_iff, ?_, ?_⟩
  · intro uri header data hsplit hmime hok
    have h2 := (validate_data_uri_iff uri).mp hok
    unfold dataUriCodeOk at h2
    simp only [hsplit] at h2
    rw [hmime] at h2
    simp only [Bool.and_eq_true, List.elem_iff] at h2
    exact absurd h2.2.1 (by decide)
  · intro uri header data hsplit hlen hok
    have h2 := (validate_data_uri_iff uri).mp hok
    unfold dataUriCodeOk at h2
    simp only [hsplit] at h2
    simp only [Bool.and_eq_true, decide_eq_true_eq] at h2
    omega

/-- C6 witness: the characterization applied at concrete inputs — the
`text/html` data URI and an over-limit payload are rejected, and a small
allow-listed URI is accepted. -/
theorem c6_data_uri_characterization_witness :
    validate_data_uri "data:text/html,x" ≠ .ok () ∧
    validate_data_uri "data:image/png;base64,abcd" = .ok () := by
  constructor
  · exact c6_data_uri_characterization.2.1 "data:text/html,x"
      "data:text/html".data "x".data (by decide) (by decide)
  · exact (c6_data_uri_characterization.1 "data:image/png;base64,abcd").mpr (by decide)

/-- C6 counterexample: the claim computes the MIME type as the header after
the literal `data:` (a single prefix strip).  On
`"data:data:image/png,x"` that MIME type is `data:image/png`, which is not
allow-listed, so the claim's "exactly when" predicts rejection — but the code
removes every occurrence of `data:` and accepts the URI. -/
theorem c6_counterexample_double_data_scheme :
    validate_data_uri "data:data:image/png,x" = .ok () ∧
    specMime "data:data:image/png,x" = "data:image/png" ∧
    dataUriClaimOk "data:data:image/png,x" = false := by
  refine ⟨by rfl, by decide, by decide⟩

/-- C7: `validate_url` rejects every string that, lowercased, begins with
`javascript:`, `vbscript:`, `file:` or `about:` — with the blocked-scheme
error, before any structural check; it accepts `https://example.com/x`; and
in general it succeeds exactly on absolute URLs whose parsed scheme is
`http`/`https` with a nonempty host, or on strings delegated to (and
accepted by) the data-URI rule because they lack scheme-plus-host structure
and begin with `data:image/`; everything else is rejected. -/
theorem c7_validate_url :
    (∀ url : String, startsWithAnyDanger (lowerL url.data) = true →
      validate_url url =
        .error (.assetError ("URL scheme not allowed: " ++
          String.mk (url.data.takeWhile (· ≠ ':'))))) ∧
    validate_url "https://example.com/x" = .ok () ∧
    (∀ url : String, validate_url url = .ok () ↔
      (startsWithAnyDanger (lowerL url.data) = false ∧
        match pyUrlsplit url with
        | some (scheme, netloc) =>
          ((scheme = "http" ∨ scheme = "https") ∧ netloc ≠ "") ∨
          ((scheme = "" ∨ netloc = "") ∧
            "data:image/".data.isPrefixOf (lowerL url.data) = true ∧
            validate_data_uri url = .ok ())
        | Option.none => False)) := by
  refine ⟨?_, by rfl, ?_⟩
  · intro url hdanger
    have hne : url ≠ "" := by
      intro h
      rw [h] at hdanger
      exact absurd hdanger (by decide)
    unfold validate_url
    simp only [hne, if_false, hdanger, if_true]
  · intro url
    unfold validate_url
    by_cases hne : url = ""
    · subst hne
      rw [if_pos rfl]
      constructor
      · intro h; exact Except.noConfusion h
      · intro ⟨_, h⟩
        have hps : pyUrlsplit "" = some ("", "") := by decide
        rw [hps] at h
        rcases h with ⟨_, hn⟩ | ⟨_, hp, _⟩
        · exact absurd rfl hn
        · exact absurd hp (by decide)
    · simp only [hne, if_false]
      by_cases hdanger : startsWithAnyDanger (lowerL url.data)
      · simp only [hdanger, if_true]
        constructor
        · intro h; simp at h
        · intro ⟨h, _⟩; simp [hdanger] at h
      · simp only [hdanger, Bool.false_eq_true, if_false]
        cases hsplit : pyUrlsplit url with
        | none => simp [hdanger]
        | some p =>
          obtain ⟨scheme, netloc⟩ := p
          by_cases hempty : scheme = "" ∨ netloc = ""
          · simp only [hempty, if_true]
            by_cases hdata : "data:image/".data.isPrefixOf (lowerL url.data)
            · simp only [hdata, if_true]
              have himp : (scheme = "http" ∨ scheme = "https") → netloc = "" := by
                intro hs
                rcases hempty with h | h
                · exfalso; rcases hs with h2 | h2 <;> simp [h2] at h
                · exact h
              cases hval : validate_data_uri url with
              | ok u =>
                cases u
                simp [hdanger, hempty, hdata, hval]
              | error e =>
                cases e with
                | assetError m => simp [hval]; exact himp
                | uncaught m => simp [hval]; exact himp
            · simp only [hdata, Bool.false_eq_true, if_false]
              have himp : (scheme = "http" ∨ scheme = "https") → netloc = "" := by
                intro hs
                rcases hempty with h | h
                · exfalso; rcases hs with h2 | h2 <;> simp [h2] at h
                · exact h
              simp [hdanger, hdata]
              exact himp
          · simp only [hempty, if_false]
            by_cases hscheme : scheme = "http" ∨ scheme = "https"
            · simp only [hscheme, not_true, if_false]
              have hn : netloc ≠ "" := by
                intro h; exact hempty (Or.inr h)
              simp [hdanger, hscheme, hn]
            · simp only [hscheme, not_false_iff, if_true]
              simp [hdanger, hscheme, hempty]

/-- C7 witness: the theorem applied at concrete URLs — `javascript:alert(1)`
is rejected with the blocked-scheme error, and an `ftp` URL falls in the
"everything else" branch of the characterization and is rejected. -/
theorem c7_validate_url_witness :
    validate_url "javascript:alert(1)" =
      .error (.assetError "URL scheme not allowed: javascript") ∧
    validate_url "ftp://example.com/x" ≠ .ok () := by
  constructor
  · exact (c7_validate_url.1 "javascript:alert(1)" (by decide)).trans (by decide)
  · intro h
    have h2 := (c7_validate_url.2.2 "ftp://example.com/x").mp h
    obtain ⟨_, h3⟩ := h2
    rw [show pyUrlsplit "ftp://example.com/x" = some ("ftp", "example.com") from by decide] at h3
    rcases h3 with ⟨hs, _⟩ | ⟨hs, _, _⟩
    · rcases hs with h4 | h4 <;> exact absurd h4 (by decide)
    · rcases hs with h4 | h4 <;> exact absurd h4 (by decide)

/-! ## Helper lemmas -/

/-- A string prefixed by `p` (by construction) passes `isPrefixOf`. -/
theorem isPrefixOf_data_append (p s : String) :
    p.data.isPrefixOf (p ++ s).data = true := by
  have h : (p ++ s).data = p.data ++ s.data := rfl
  rw [h]
  exact List.isPrefixOf_iff_prefix.mpr (List.prefix_append _ _)

/-- Every missing-required message is recognised as such. -/
theorem isMissingErrMsg_missingAssetMsg (r : AssetsRequired) :
    isMissingErrMsg (missingAssetMsg r) = true := by
  unfold isMissingErrMsg missingAssetMsg
  rw [String.append_assoc, String.append_assoc]
  exact isPrefixOf_data_append _ _

/-- A missing-required message is not a per-asset message (their literal
first characters differ). -/
theorem not_perAsset_of_missingAssetMsg (r : AssetsRequired) :
    isPerAssetErrMsg (missingAssetMsg r) = false := by
  unfold isPerAssetErrMsg missingAssetMsg
  rfl

/-- A per-asset message is not a missing-required message. -/
theorem not_missing_of_perAsset (e : String) (h : isPerAssetErrMsg e = true) :
    isMissingErrMsg e = false := by
  unfold isPerAssetErrMsg at h
  unfold isMissingErrMsg
  obtain ⟨t, ht⟩ := List.isPrefixOf_iff_prefix.mp h
  by_contra hm
  rw [Bool.not_eq_false] at hm
  obtain ⟨u, hu⟩ := List.isPrefixOf_iff_prefix.mp hm
  rw [← ht] at hu
  have h1 : ("Missing required ".data ++ u).head? = some 'M' := rfl
  have h2 : ("Asset '".data ++ t).head? = some 'A' := rfl
  rw [hu] at h1
  rw [h1] at h2
  exact absurd (Option.some.inj h2) (by decide)

/-- Every error collected by the per-asset loop is a per-asset message. -/
theorem assetErrorsLoop_ok_perAsset :
    ∀ (l : List (String × PyVal)) (es : List String),
      assetErrorsLoop l = .ok es → ∀ e ∈ es, isPerAssetErrMsg e = true := by
  intro l
  induction l with
  | nil =>
    intro es h e he
    unfold assetErrorsLoop at h
    cases h
    cases he
  | cons x rest ih =>
    intro es h e he
    obtain ⟨aid, adata⟩ := x
    unfold assetErrorsLoop at h
    cases hv : validate_asset adata with
    | ok u =>
      rw [hv] at h
      exact ih es h e he
    | error err =>
      rw [hv] at h
      cases err with
      | assetError m =>
        cases hrest : assetErrorsLoop rest with
        | ok es2 =>
          rw [hrest] at h
          cases h
          rcases List.mem_cons.mp he with he | he
          · subst he
            unfold isPerAssetErrMsg
            rw [String.append_assoc, String.append_assoc]
            exact isPrefixOf_data_append _ _
          · exact ih es2 hrest e he
        | error e2 =>
          rw [hrest] at h
          cases h
      | uncaught m =>
        cases h

/-- Membership in a conditional narrowing pass implies membership in its
input list. -/
theorem mem_of_if_filter {cond : Bool} {p : CreativeFormat → Bool}
    {l : List CreativeFormat} {a : CreativeFormat}
    (h : a ∈ (if cond then l.filter p else l)) : a ∈ l := by
  split at h
  · exact (List.mem_filter.mp h).1
  · exact h

/-- Pass 1 narrows. -/
theorem mem_of_passIds {i l a} (h : a ∈ passIds i l) : a ∈ l := by
  unfold passIds at h; exact mem_of_if_filter h

/-- Pass 2 narrows. -/
theorem mem_of_passType {t l a} (h : a ∈ passType t l) : a ∈ l := by
  unfold passType at h; exact mem_of_if_filter h

/-- Pass 3 narrows. -/
theorem mem_of_passDimExact {d l a} (h : a ∈ passDimExact d l) : a ∈ l := by
  unfold passDimExact at h; exact mem_of_if_filter h

/-- Pass 4 narrows. -/
theorem mem_of_passDimBounds {mw mh nw nh l a}
    (h : a ∈ passDimBounds mw mh nw nh l) : a ∈ l := by
  unfold passDimBounds at h; exact mem_of_if_filter h

/-- Pass 5 narrows. -/
theorem mem_of_passResponsive {r l a} (h : a ∈ passResponsive r l) : a ∈ l := by
  unfold passResponsive at h
  match r with
  | Option.none => exact h
  | some true => exact (List.mem_filter.mp h).1
  | some false => exact (List.mem_filter.mp h).1

/-- Pass 6 narrows. -/
theorem mem_of_passNameSearch {n l a} (h : a ∈ passNameSearch n l) : a ∈ l := by
  unfold passNameSearch at h; exact mem_of_if_filter h

/-- Pass 7 narrows. -/
theorem mem_of_passAssetTypes {t l a} (h : a ∈ passAssetTypes t l) : a ∈ l := by
  unfold passAssetTypes at h; exact mem_of_if_filter h

/-- Every format returned by `filter_formats` is a registry entry. -/
theorem mem_std_of_mem_filter_formats
    {fids type ats dims mw mh nw nh resp ns} {fmt : CreativeFormat}
    (h : fmt ∈ filter_formats fids type ats dims mw mh nw nh resp ns) :
    fmt ∈ STANDARD_FORMATS := by
  unfold filter_formats at h
  exact mem_of_passIds (mem_of_passType (mem_of_passDimExact
    (mem_of_passDimBounds (mem_of_passResponsive
      (mem_of_passNameSearch (mem_of_passAssetTypes h))))))

/-! ## Claim theorems: manifest validator (C2, C5, C10) -/

/-- C2 (code bug): `validate_manifest_assets` is documented to return a list
of error messages for user-input problems, never raising — but an image
asset whose `format` field is a truthy non-string (here the integer 1)
reaches `img_format.lower()` and raises `AttributeError`, which is not an
`AssetValidationError` and escapes `validate_manifest_assets` (for every
format argument) instead of becoming an entry of the returned list. -/
theorem c2_nonstring_image_format_raises :
    validate_asset c2FailingAsset =
      .error (.uncaught "'int' object has no attribute 'lower'") ∧
    (∀ fmtOpt, validate_manifest_assets c2FailingManifest fmtOpt =
      .error (.uncaught "'int' object has no attribute 'lower'")) :=
  ⟨rfl, fun _ => rfl⟩

/-- C10: a manifest whose `assets` field is present but an empty mapping is
rejected with the single structural error `Manifest must contain assets
field` — the presence check is a truthiness check, so an empty assets map
is indistinguishable from a missing one, for every format (in particular
one whose requirements are all optional). -/
theorem c10_empty_assets_rejected :
    ∀ (m : List (String × PyVal)) (f : Option CreativeFormat),
      pyGet m "assets" = some (PyVal.dict []) →
      validate_manifest_assets (PyVal.dict m) f =
        .ok ["Manifest must contain assets field"] := by
  intro m f hget
  unfold validate_manifest_assets
  simp only [hget]
  rfl

/-- C10 witness: the empty-assets manifest against a format whose only
requirement is optional still yields the structural error. -/
theorem c10_empty_assets_rejected_witness :
    validate_manifest_assets (PyVal.dict [("assets", PyVal.dict [])])
        (some ⟨"f", "F", "display", Option.none, Option.none,
          [⟨"x", "image", false⟩]⟩) =
      .ok ["Manifest must contain assets field"] :=
  c10_empty_assets_rejected _ _ rfl

/-- C5: when the manifest is not a mapping, lacks an `assets` field, or has
a non-mapping `assets` field, `validate_manifest_assets` returns exactly
one structural error, and no required-asset or per-asset check runs — the
result does not depend on the format argument at all. -/
theorem c5_structural_single_error :
    ∀ (manifest : PyVal),
      ((∀ m, manifest ≠ PyVal.dict m) ∨
       (∃ m, manifest = PyVal.dict m ∧ pyGet m "assets" = Option.none) ∨
       (∃ m v, manifest = PyVal.dict m ∧ pyGet m "assets" = some v ∧
         ∀ a, v ≠ PyVal.dict a)) →
      ∃ e ∈ structuralMsgs, ∀ f, validate_manifest_assets manifest f = .ok [e] := by
  intro manifest h
  rcases h with h1 | ⟨m, hm, hget⟩ | ⟨m, v, hm, hget, hnd⟩
  · refine ⟨"Manifest must be a dictionary", by decide, ?_⟩
    intro f
    cases manifest with
    | dict mm => exact absurd rfl (h1 mm)
    | none => rfl
    | bool b => rfl
    | int n => rfl
    | float q => rfl
    | str s => rfl
    | list xs => rfl
  · subst hm
    refine ⟨"Manifest must contain assets field", by decide, ?_⟩
    intro f
    unfold validate_manifest_assets
    simp only [hget]
    rfl
  · subst hm
    by_cases hv : v.truthy = true
    · refine ⟨"Manifest assets must be a dictionary", by decide, ?_⟩
      intro f
      unfold validate_manifest_assets
      simp only [hget, Option.getD]
      cases v with
      | dict a => exact absurd rfl (hnd a)
      | none => exact absurd hv (by decide)
      | bool b => rw [hv]; rfl
      | int n => rw [hv]; rfl
      | float q => rw [hv]; rfl
      | str s => rw [hv]; rfl
      | list xs => rw [hv]; rfl
    · refine ⟨"Manifest must contain assets field", by decide, ?_⟩
      intro f
      unfold validate_manifest_assets
      simp only [hget, Option.getD]
      rw [Bool.not_eq_true] at hv
      rw [hv]; rfl

/-- C5 witness: the theorem applied to a string manifest, to a manifest
without `assets`, and to a manifest whose `assets` is a (nonempty) list. -/
theorem c5_structural_single_error_witness :
    (∃ e ∈ structuralMsgs,
      ∀ f, validate_manifest_assets (PyVal.str "nope") f = .ok [e]) ∧
    (∃ e ∈ structuralMsgs,
      ∀ f, validate_manifest_assets (PyVal.dict [("format_id", PyVal.str "x")]) f = .ok [e]) ∧
    (∃ e ∈ structuralMsgs,
      ∀ f, validate_manifest_assets
        (PyVal.dict [("assets", PyVal.list [PyVal.int 1])]) f = .ok [e]) := by
  refine ⟨?_, ?_, ?_⟩
  · exact c5_structural_single_error _ (Or.inl (fun m h => PyVal.noConfusion h))
  · exact c5_structural_single_error _ (Or.inr (Or.inl ⟨_, rfl, rfl⟩))
  · exact c5_structural_single_error _
      (Or.inr (Or.inr ⟨_, _, rfl, rfl, fun a h => PyVal.noConfusion h⟩))

/-- Unfolding equation of `missingRequiredErrors` at a present format. -/
theorem missingRequiredErrors_some (f : CreativeFormat)
    (assets : List (String × PyVal)) :
    missingRequiredErrors (some f) assets =
      if f.assets_required.isEmpty = true then []
      else (f.assets_required.filter fun r =>
        r.required && r.asset_id ≠ "" && (pyGet assets r.asset_id).isNone).map
        missingAssetMsg := rfl

/-! ## Claim theorems: required assets and type mismatches (C3, C4) -/

/-- C3 (amended): for every format and every manifest whose `assets` field
is a nonempty mapping and whose per-asset validation raises no uncaught
exception, the returned list is the missing-required errors followed by the
per-asset errors: exactly one missing-required entry per requirement with
`required = true` and a truthy `asset_id` absent from the map (an optional
requirement's absence contributes none), and the missing-asset check does
not short-circuit — every per-asset error is still collected.  The
end-to-end round trip holds: the manifest missing only `click_url` yields
exactly that one missing error, and adding the valid asset yields `[]`. -/
theorem c3_missing_required_characterization :
    (∀ (f : CreativeFormat) (m entries : List (String × PyVal)) (es : List String),
      pyGet m "assets" = some (PyVal.dict entries) →
      entries ≠ [] →
      assetErrorsLoop entries = .ok es →
      validate_manifest_assets (PyVal.dict m) (some f) =
        .ok (missingRequiredErrors (some f) entries ++ es) ∧
      (missingRequiredErrors (some f) entries ++ es).countP
          (fun e => isMissingErrMsg e) = requiredAbsentCount f entries ∧
      (missingRequiredErrors (some f) entries ++ es).countP
          (fun e => isPerAssetErrMsg e) = es.length) ∧
    validate_manifest_assets exampleManifestMissingClick
        (some fmt_display_300x250_image) =
      .ok ["Missing required url asset: 'click_url'"] ∧
    validate_manifest_assets exampleManifest (some fmt_display_300x250_image) =
      .ok [] := by
  refine ⟨?_, rfl, rfl⟩
  intro f m entries es hget hne hloop
  have hperAsset : ∀ e ∈ es, isPerAssetErrMsg e = true :=
    assetErrorsLoop_ok_perAsset entries es hloop
  have hmissingAll : ∀ e ∈ missingRequiredErrors (some f) entries,
      isMissingErrMsg e = true := by
    intro e he
    rw [missingRequiredErrors_some] at he
    by_cases hemp : f.assets_required.isEmpty = true
    · rw [if_pos hemp] at he; cases he
    · rw [if_neg hemp] at he
      obtain ⟨r, _, hr⟩ := List.mem_map.mp he
      rw [← hr]
      exact isMissingErrMsg_missingAssetMsg r
  refine ⟨?_, ?_, ?_⟩
  · unfold validate_manifest_assets
    simp only [hget, Option.getD]
    have ht : PyVal.truthy (PyVal.dict entries) = true := by
      simp [PyVal.truthy, hne]
    rw [ht]
    simp only [hloop]
    rfl
  · rw [List.countP_append]
    have h1 : (missingRequiredErrors (some f) entries).countP
        (fun e => isMissingErrMsg e) =
        (missingRequiredErrors (some f) entries).length :=
      List.countP_eq_length.mpr (fun e he => hmissingAll e he)
    have h2 : es.countP (fun e => isMissingErrMsg e) = 0 :=
      List.countP_eq_zero.mpr (fun e he => by
        rw [not_missing_of_perAsset e (hperAsset e he)]; exact Bool.false_ne_true)
    rw [h1, h2, Nat.add_zero]
    rw [missingRequiredErrors_some]
    unfold requiredAbsentCount
    by_cases hemp : f.assets_required.isEmpty = true
    · rw [if_pos hemp]
      rw [List.isEmpty_iff] at hemp
      rw [hemp]
      rfl
    · rw [if_neg hemp, List.length_map]
  · rw [List.countP_append]
    have h1 : (missingRequiredErrors (some f) entries).countP
        (fun e => isPerAssetErrMsg e) = 0 :=
      List.countP_eq_zero.mpr (fun e he => by
        rw [missingRequiredErrors_some] at he
        by_cases hemp : f.assets_required.isEmpty = true
        · rw [if_pos hemp] at he; cases he
        · rw [if_neg hemp] at he
          obtain ⟨r, _, hr⟩ := List.mem_map.mp he
          rw [← hr, not_perAsset_of_missingAssetMsg r]
          exact Bool.false_ne_true)
    have h2 : es.countP (fun e => isPerAssetErrMsg e) = es.length :=
      List.countP_eq_length.mpr (fun e he => hperAsset e he)
    rw [h1, h2, Nat.zero_add]

/-- C3 witness: the characterization applied to the concrete
`display_300x250_image` manifest that omits `click_url`. -/
theorem c3_missing_required_characterization_witness :
    validate_manifest_assets exampleManifestMissingClick
        (some fmt_display_300x250_image) =
      .ok (missingRequiredErrors (some fmt_display_300x250_image)
        [("banner_image", exampleBannerImage)] ++ []) ∧
    requiredAbsentCount fmt_display_300x250_image
      [("banner_image", exampleBannerImage)] = 1 := by
  constructor
  · exact (c3_missing_required_characterization.1 fmt_display_300x250_image
      [("assets", PyVal.dict [("banner_image", exampleBannerImage)])]
      [("banner_image", exampleBannerImage)] [] rfl
      (List.cons_ne_nil _ _) rfl).1
  · rfl

/-- C3 counterexample: the claim quantifies over every manifest whose
`assets` field is a mapping, but for the empty mapping the truthiness
shortcut returns the single structural error instead — although both
requirements of `display_300x250_image` are required and absent, zero
missing-required errors are emitted. -/
theorem c3_counterexample_empty_assets_map :
    validate_manifest_assets (PyVal.dict [("assets", PyVal.dict [])])
        (some fmt_display_300x250_image) =
      .ok ["Manifest must contain assets field"] ∧
    ["Manifest must contain assets field"].countP
        (fun e => isMissingErrMsg e) = 0 ∧
    requiredAbsentCount fmt_display_300x250_image [] = 2 :=
  ⟨rfl, by decide, rfl⟩

/-- C4 (amended): `validate_manifest_assets` performs no declared-versus-
expected type check at all: when every required asset id is present, the
format contributes nothing to the result (it equals validation with no
format), so a manifest whose `click_url` asset declares type `text` — while
the format's requirement for that id declares `url` — validates with zero
errors; the asset is checked solely by the validator for its own declared
type. -/
theorem c4_no_mismatch_error :
    (∀ (f : CreativeFormat) (m entries : List (String × PyVal)),
      pyGet m "assets" = some (PyVal.dict entries) →
      (∀ r ∈ f.assets_required, r.required = true → r.asset_id ≠ "" →
        (pyGet entries r.asset_id).isSome = true) →
      validate_manifest_assets (PyVal.dict m) (some f) =
        validate_manifest_assets (PyVal.dict m) Option.none) ∧
    validate_manifest_assets c4MismatchManifest
        (some fmt_display_300x250_image) = .ok [] := by
  refine ⟨?_, rfl⟩
  intro f m entries hget hall
  have hmiss : missingRequiredErrors (some f) entries = [] := by
    rw [missingRequiredErrors_some]
    by_cases hemp : f.assets_required.isEmpty = true
    · rw [if_pos hemp]
    · rw [if_neg hemp]
      rw [List.filter_eq_nil_iff.mpr ?_]
      · rfl
      · intro r hr hcond
        simp only [Bool.and_eq_true, decide_eq_true_eq] at hcond
        obtain ⟨⟨hreq, hid⟩, habs⟩ := hcond
        have := hall r hr hreq hid
        rw [Option.isSome_iff_exists] at this
        obtain ⟨v, hv⟩ := this
        rw [hv] at habs
        cases habs
  unfold validate_manifest_assets
  simp only [hget, Option.getD]
  rw [hmiss]
  rfl

/-- C4 witness: the general part applied to the concrete mismatch manifest
(all required ids present), giving format-independence there. -/
theorem c4_no_mismatch_error_witness :
    validate_manifest_assets c4MismatchManifest
        (some fmt_display_300x250_image) =
      validate_manifest_assets c4MismatchManifest Option.none :=
  c4_no_mismatch_error.1 fmt_display_300x250_image _ _ rfl (by decide)

/-- C4 counterexample: the claim requires a distinct `invalid_type`-kind
error for the declared/expected mismatch, but the result list is empty —
no mismatch error of any kind is surfaced even though the format's
`click_url` requirement declares type `url` and the manifest's `click_url`
asset declares type `text`. -/
theorem c4_counterexample_mismatch_unflagged :
    validate_manifest_assets c4MismatchManifest
        (some fmt_display_300x250_image) = .ok [] ∧
    fmt_display_300x250_image.assets_required.any
      (fun r => r.asset_id == "click_url" && r.asset_type == "url") = true ∧
    pyGet (manifestAssets c4MismatchManifest) "click_url" =
      some (PyVal.dict [("asset_type", PyVal.str "text"),
        ("content", PyVal.str "hello")]) :=
  ⟨rfl, rfl, rfl⟩

/-! ## Claim theorems: preview rendering (C9, C8) -/

/-- No registry entry sets the legacy `dimensions` attribute. -/
theorem registry_dimensions_none : ∀ f ∈ STANDARD_FORMATS, f.dimensions = Option.none := by
  intro f hf
  have hall : STANDARD_FORMATS.all (fun f => f.dimensions.isNone) = true := rfl
  exact Option.isNone_iff_eq_none.mp (List.all_eq_true.mp hall f hf)

/-- C9 (amended): the preview document's target width and height are taken
from the format's declared `dimensions` when present and parseable as
`WIDTHxHEIGHT`; when the format declares no dimensions (or an empty
string), the fallback is 300×250 for **every** format type — there is no
640×360 fallback for video formats. -/
theorem c9_preview_dimension_selection :
    (∀ (fmt : CreativeFormat) (assets : List (String × PyVal)) (name d : String)
        (p1 p2 : List Char) (w h : Int),
      fmt.dimensions = some d → d ≠ "" →
      splitAllOn 'x' d.data = [p1, p2] →
      pyInt p1 = some w → pyInt p2 = some h →
      ∃ doc, generate_preview_html fmt assets name = .ok doc ∧
        doc.width = w ∧ doc.height = h) ∧
    (∀ (fmt : CreativeFormat) (assets : List (String × PyVal)) (name : String),
      (fmt.dimensions = Option.none ∨ fmt.dimensions = some "") →
      ∃ doc, generate_preview_html fmt assets name = .ok doc ∧
        doc.width = 300 ∧ doc.height = 250) := by
  constructor
  · intro fmt assets name d p1 p2 w h hd hne hsplit hp1 hp2
    unfold generate_preview_html previewDims
    simp only [hd]
    rw [if_pos hne]
    simp only [hsplit, hp1, hp2]
    exact ⟨_, rfl, rfl, rfl⟩
  · intro fmt assets name hd
    rcases hd with hd | hd <;>
      (unfold generate_preview_html previewDims; simp only [hd])
    · exact ⟨_, rfl, rfl, rfl⟩
    · exact ⟨_, rfl, rfl, rfl⟩

/-- C9 witness: a format declaring `728x90` renders at 728×90, and the
dimensionless video format `video_standard_30s` renders at the 300×250
fallback. -/
theorem c9_preview_dimension_selection_witness :
    (∃ doc, generate_preview_html
        ⟨"f", "F", "display", Option.none, some "728x90", []⟩ [] "v" = .ok doc ∧
      doc.width = 728 ∧ doc.height = 90) ∧
    (∃ doc, generate_preview_html fmt_video_standard_30s [] "v" = .ok doc ∧
      doc.width = 300 ∧ doc.height = 250) := by
  constructor
  · exact c9_preview_dimension_selection.1 _ [] "v" "728x90" "728".data "90".data
      728 90 rfl (by decide) (by decide) (by decide) (by decide)
  · exact c9_preview_dimension_selection.2 fmt_video_standard_30s [] "v" (Or.inl rfl)

/-- C9 counterexample: for the video format `video_standard_30s`, which
declares no dimensions, the preview document is rendered at 300×250, not at
the 640×360 video fallback the claim describes. -/
theorem c9_counterexample_video_fallback_is_300x250 :
    fmt_video_standard_30s.type = "video" ∧
    fmt_video_standard_30s.dimensions = Option.none ∧
    generate_preview_html fmt_video_standard_30s [] "Desktop" =
      .ok { width := 300, height := 250, image_url := Option.none,
            click_url := Option.none,
            format_name := "Standard Video - 30 seconds",
            variant_name := "Desktop" } ∧
    ((300 : Int), (250 : Int)) ≠ ((640 : Int), (360 : Int)) :=
  ⟨rfl, rfl, rfl, by decide⟩

/-- C8: when `preview_creative` is called with a manifest that validates
with zero errors (and whose `format_id` field, if any, is absent/falsy) and
no input variants, exactly three previews are produced, named Desktop,
Mobile and Tablet, whose macro maps differ only in the value of
`DEVICE_TYPE` (desktop/mobile/tablet), one preview per variant; the
end-to-end `display_300x250_image` scenario with both required assets
yields exactly those 3 previews and zero validation errors. -/
theorem c8_default_variants :
    (∀ (fid : String) (manifest : PyVal) (pid : String) (fmt : CreativeFormat),
      get_format_by_id fid = some fmt →
      (match manifest with
       | .dict m => (pyGet m "format_id").getD PyVal.none
       | _ => PyVal.none).truthy = false →
      validate_manifest_assets manifest (some fmt) = .ok [] →
      preview_creative fid manifest Option.none pid =
        .ok [⟨pid, uploadPreviewUrl pid "desktop", "Desktop", [("DEVICE_TYPE", "desktop")]⟩,
             ⟨pid, uploadPreviewUrl pid "mobile", "Mobile", [("DEVICE_TYPE", "mobile")]⟩,
             ⟨pid, uploadPreviewUrl pid "tablet", "Tablet", [("DEVICE_TYPE", "tablet")]⟩]) ∧
    preview_creative "display_300x250_image" exampleManifest Option.none "pid0" =
      .ok [⟨"pid0", uploadPreviewUrl "pid0" "desktop", "Desktop", [("DEVICE_TYPE", "desktop")]⟩,
           ⟨"pid0", uploadPreviewUrl "pid0" "mobile", "Mobile", [("DEVICE_TYPE", "mobile")]⟩,
           ⟨"pid0", uploadPreviewUrl "pid0" "tablet", "Tablet", [("DEVICE_TYPE", "tablet")]⟩] ∧
    validate_manifest_assets exampleManifest (some fmt_display_300x250_image) =
      .ok [] := by
  have main : ∀ (fid : String) (manifest : PyVal) (pid : String) (fmt : CreativeFormat),
      get_format_by_id fid = some fmt →
      (match manifest with
       | .dict m => (pyGet m "format_id").getD PyVal.none
       | _ => PyVal.none).truthy = false →
      validate_manifest_assets manifest (some fmt) = .ok [] →
      preview_creative fid manifest Option.none pid =
        .ok [⟨pid, uploadPreviewUrl pid "desktop", "Desktop", [("DEVICE_TYPE", "desktop")]⟩,
             ⟨pid, uploadPreviewUrl pid "mobile", "Mobile", [("DEVICE_TYPE", "mobile")]⟩,
             ⟨pid, uploadPreviewUrl pid "tablet", "Tablet", [("DEVICE_TYPE", "tablet")]⟩] := by
    intro fid manifest pid fmt hfind hmfid hvalid
    have hdim : fmt.dimensions = Option.none :=
      registry_dimensions_none fmt (List.mem_of_find?_eq_some hfind)
    have hgen : ∀ nm, generate_preview_html fmt (manifestAssets manifest) nm =
        .ok { width := 300, height := 250,
              image_url := firstAssetUrl (manifestAssets manifest) "image",
              click_url := firstAssetUrl (manifestAssets manifest) "url",
              format_name := fmt.name, variant_name := nm } := by
      intro nm
      unfold generate_preview_html previewDims
      rw [hdim]
    have h1 : variantFileName "Desktop" = "desktop" := rfl
    have h2 : variantFileName "Mobile" = "mobile" := rfl
    have h3 : variantFileName "Tablet" = "tablet" := rfl
    unfold preview_creative
    rw [hfind]
    simp only [hmfid, Bool.false_and, Bool.false_eq_true, if_false, hvalid,
      List.isEmpty_nil, Bool.not_false, Bool.not_true, defaultPreviewInputs,
      previewLoop, hgen, h1, h2, h3]
  exact ⟨main, main "display_300x250_image" exampleManifest "pid0"
    fmt_display_300x250_image rfl rfl rfl, rfl⟩

/-! ## Claim theorems: dimension filtering (C1) -/

/-- Registry-wide: every `requirements["dimensions"]` entry parses as
`WIDTHxHEIGHT`. -/
theorem registry_dims_parseable : ∀ f ∈ STANDARD_FORMATS, dimsEntryParsed f = true := by
  intro f hf
  exact List.all_eq_true.mp
    (show STANDARD_FORMATS.all dimsEntryParsed = true from rfl) f hf

/-- C1 (amended): whenever at least one of `max_width`, `max_height`,
`min_width`, `min_height` is supplied with a **nonzero** value (the guard
is Python truthiness, so a bound supplied as `0` — like an empty
`dimensions` string — deactivates the corresponding filter), every
returned format has parsed `WIDTHxHEIGHT` dimensions and satisfies every
supplied bound inclusively (bounds supplied as `0` included, once the pass
is active); and whenever a non-empty exact `dimensions` string is
supplied, every returned format carries exactly that dimensions entry —
which parses as `WIDTHxHEIGHT` for every registry entry. -/
theorem c1_dimension_bound_filtering :
    (∀ (fids : Option (List String)) (type : Option String)
        (ats : Option (List String)) (dims : Option String)
        (mw mh nw nh : Option Int) (resp : Option Bool) (ns : Option String)
        (fmt : CreativeFormat),
      (optIntTruthy mw || optIntTruthy mh || optIntTruthy nw || optIntTruthy nh) = true →
      fmt ∈ filter_formats fids type ats dims mw mh nw nh resp ns →
      ∃ w h, get_dimensions fmt = (some w, some h) ∧
        (∀ v, mw = some v → w ≤ v) ∧ (∀ v, mh = some v → h ≤ v) ∧
        (∀ v, nw = some v → v ≤ w) ∧ (∀ v, nh = some v → v ≤ h)) ∧
    (∀ (fids : Option (List String)) (type : Option String)
        (ats : Option (List String)) (d : String)
        (mw mh nw nh : Option Int) (resp : Option Bool) (ns : Option String)
        (fmt : CreativeFormat),
      d ≠ "" →
      fmt ∈ filter_formats fids type ats (some d) mw mh nw nh resp ns →
      ∃ w h reqs, get_dimensions fmt = (some w, some h) ∧
        fmt.requirements = some reqs ∧
        pyGet reqs "dimensions" = some (PyVal.str d)) := by
  constructor
  · intro fids type ats dims mw mh nw nh resp ns fmt hany hmem
    unfold filter_formats at hmem
    have h4 := mem_of_passResponsive
      (mem_of_passNameSearch (mem_of_passAssetTypes hmem))
    unfold passDimBounds at h4
    rw [if_pos hany] at h4
    have hp := (List.mem_filter.mp h4).2
    unfold dimFilterPass at hp
    rcases hgd : get_dimensions fmt with ⟨ow, oh⟩
    rw [hgd] at hp
    cases ow with
    | none => simp at hp
    | some w =>
      cases oh with
      | none => simp at hp
      | some h =>
        simp only [Bool.and_eq_true] at hp
        obtain ⟨⟨⟨hmw, hmh⟩, hnw⟩, hnh⟩ := hp
        refine ⟨w, h, ?_, ?_, ?_, ?_, ?_⟩
        · first
          | exact hgd
          | rfl
        · intro v hv; rw [hv] at hmw; exact of_decide_eq_true hmw
        · intro v hv; rw [hv] at hmh; exact of_decide_eq_true hmh
        · intro v hv; rw [hv] at hnw; exact of_decide_eq_true hnw
        · intro v hv; rw [hv] at hnh; exact of_decide_eq_true hnh
  · intro fids type ats d mw mh nw nh resp ns fmt hd hmem
    have hstd : fmt ∈ STANDARD_FORMATS := mem_std_of_mem_filter_formats hmem
    unfold filter_formats at hmem
    have h3 := mem_of_passDimBounds (mem_of_passResponsive
      (mem_of_passNameSearch (mem_of_passAssetTypes hmem)))
    unfold passDimExact at h3
    have hcond : optStrTruthy (some d) = true := by
      simp [optStrTruthy, hd]
    rw [if_pos hcond] at h3
    have hp := (List.mem_filter.mp h3).2
    unfold dimExactPass at hp
    rcases hreq : fmt.requirements with _ | reqs
    · rw [hreq] at hp; simp at hp
    · rw [hreq] at hp
      simp only [Bool.and_eq_true] at hp
      obtain ⟨_, hval⟩ := hp
      rcases hv : pyGet reqs "dimensions" with _ | v
      · rw [hv] at hval
        simp at hval
      · rw [hv] at hval
        cases v with
        | str t =>
          have ht : t = d := by
            simpa [isStrVal, Option.getD] using hval
          subst ht
          have hparsed := registry_dims_parseable fmt hstd
          unfold dimsEntryParsed at hparsed
          simp only [hreq, hv] at hparsed
          simp only [Bool.and_eq_true] at hparsed
          obtain ⟨hw, hh⟩ := hparsed
          rcases hgd : get_dimensions fmt with ⟨ow, oh⟩
          rw [hgd] at hw hh
          obtain ⟨w, how⟩ := Option.isSome_iff_exists.mp hw
          obtain ⟨h, hoh⟩ := Option.isSome_iff_exists.mp hh
          subst how hoh
          refine ⟨w, h, reqs, ?_, rfl, hv⟩
          first
          | exact hgd
          | rfl
        | none => simp [isStrVal] at hval
        | bool b => simp [isStrVal] at hval
        | int n => simp [isStrVal] at hval
        | float q => simp [isStrVal] at hval
        | list xs => simp [isStrVal] at hval
        | dict xs => simp [isStrVal] at hval

/-- C1 witness: filtering with `max_width=1920` is active, keeps
`display_300x250_image`, and the theorem yields its parsed dimensions and
the inclusive bound. -/
theorem c1_dimension_bound_filtering_witness :
    ∃ w h, get_dimensions fmt_display_300x250_image = (some w, some h) ∧
      w ≤ 1920 := by
  have hmem : fmt_display_300x250_image ∈ filter_formats Option.none Option.none
      Option.none Option.none (some 1920) Option.none Option.none Option.none
      Option.none Option.none := by
    show fmt_display_300x250_image ∈
      List.filter (dimFilterPass (some 1920) Option.none Option.none Option.none)
        STANDARD_FORMATS
    exact List.mem_filter.mpr ⟨by simp [STANDARD_FORMATS], by rfl⟩
  obtain ⟨w, h, hgd, hbw, _, _, _⟩ :=
    c1_dimension_bound_filtering.1 Option.none Option.none Option.none Option.none
      (some 1920) Option.none Option.none Option.none Option.none Option.none
      fmt_display_300x250_image (by decide) hmem
  exact ⟨w, h, hgd, hbw 1920 rfl⟩

/-- C1 counterexample: supplying `max_width=0` — a supplied bound — leaves
the dimension filter inactive (`any([0, None, None, None])` is false), so
the full registry is returned, including `audio_standard_15s`, which has no
`WIDTHxHEIGHT` dimensions entry and no parsed width at all, contradicting
both halves of the claim. -/
theorem c1_counterexample_zero_max_width :
    filter_formats Option.none Option.none Option.none Option.none (some 0)
        Option.none Option.none Option.none Option.none Option.none =
      STANDARD_FORMATS ∧
    fmt_audio_standard_15s ∈ STANDARD_FORMATS ∧
    get_dimensions fmt_audio_standard_15s = (Option.none, Option.none) := by
  refine ⟨rfl, by simp [STANDARD_FORMATS], rfl⟩

/-- C8 witness: the general part applied to the concrete end-to-end
scenario (format found, no manifest `format_id`, validation clean). -/
theorem c8_default_variants_witness :
    preview_creative "display_300x250_image" exampleManifest Option.none "w1" =
      .ok [⟨"w1", uploadPreviewUrl "w1" "desktop", "Desktop", [("DEVICE_TYPE", "desktop")]⟩,
           ⟨"w1", uploadPreviewUrl "w1" "mobile", "Mobile", [("DEVICE_TYPE", "mobile")]⟩,
           ⟨"w1", uploadPreviewUrl "w1" "tablet", "Tablet", [("DEVICE_TYPE", "tablet")]⟩] :=
  c8_default_variants.1 "display_300x250_image" exampleManifest "w1"
    fmt_display_300x250_image rfl rfl rfl
